import Mathlib

/-!
Shallow embedding of the core of the bplib BPv6 bundle engine:
the circular active-bundle table (src/common/cbuf.c), the bundle
integrity block codec (src/v6/bib.c) and the v6 build/send/receive
paths (src/v6/v6.c).  Collaborators whose sources are not part of the
repository snapshot (the SDNV codec, the CRC service, the logger, and
the numeric constants of bplib.h) are modelled from the specification
and are marked as such in their doc comments.
-/

namespace BPLib

/-! ## Constants

Return codes from src/lib/bundle_types.h where available; the remaining
codes and flag bits are modelled from the specification (§7), which fixes
only that success is distinguished, errors are negative, and flags are
OR-able bits; the particular numeric values are otherwise arbitrary. -/

/-- Modelled from the spec: success return code (`BP_SUCCESS` of bplib.h). -/
def BP_SUCCESS : Int := 0

/-- Modelled from the spec: generic error return code (`BP_ERROR` of bplib.h);
errors are negative. -/
def BP_ERROR : Int := -1

/-- Modelled from the spec: timeout return code (`BP_TIMEOUT` of bplib.h),
distinct from the other codes. -/
def BP_TIMEOUT : Int := -2

/-- From src/lib/bundle_types.h. -/
def BP_DUPLICATE : Int := -100

/-- From src/lib/bundle_types.h. -/
def BP_PENDING_ACKNOWLEDGMENT : Int := -102

/-- From src/lib/bundle_types.h. -/
def BP_PENDING_FORWARD : Int := -103

/-- From src/lib/bundle_types.h. -/
def BP_PENDING_ACCEPTANCE : Int := -104

/-- From src/lib/bundle_types.h. -/
def BP_PENDING_EXPIRATION : Int := -106

/-- From src/lib/bundle_types.h. -/
def BP_BUNDLE_HDR_BUF_SIZE : Nat := 128

/-- Modelled from the spec (§7): OR-able error flag bits; values arbitrary
but distinct powers of two. -/
def BP_FLAG_NONCOMPLIANT : Nat := 0x1

/-- Modelled from the spec (§7). -/
def BP_FLAG_DROPPED : Nat := 0x2

/-- Modelled from the spec (§7). -/
def BP_FLAG_BUNDLE_TOO_LARGE : Nat := 0x4

/-- Modelled from the spec (§7). -/
def BP_FLAG_UNKNOWNREC : Nat := 0x8

/-- Modelled from the spec (§7). -/
def BP_FLAG_INVALID_CIPHER_SUITEID : Nat := 0x10

/-- Modelled from the spec (§7). -/
def BP_FLAG_INVALID_BIB_RESULT_TYPE : Nat := 0x20

/-- Modelled from the spec (§7). -/
def BP_FLAG_INVALID_BIB_TARGET_TYPE : Nat := 0x40

/-- Modelled from the spec (§7). -/
def BP_FLAG_FAILED_TO_PARSE : Nat := 0x80

/-- Modelled from the spec (§7). -/
def BP_FLAG_SDNV_OVERFLOW : Nat := 0x100

/-- Modelled from the spec (§7). -/
def BP_FLAG_SDNV_INCOMPLETE : Nat := 0x200

/-- Modelled from the spec (§7). -/
def BP_FLAG_UNRELIABLE_TIME : Nat := 0x400

/-- Modelled from the spec (§7). -/
def BP_FLAG_FAILED_INTEGRITY_CHECK : Nat := 0x800

/-- Modelled from the spec (§7). -/
def BP_FLAG_STORE_FAILURE : Nat := 0x1000

/-- Modelled from the spec (§7). -/
def BP_FLAG_ROUTE_NEEDED : Nat := 0x2000

/-- Modelled from the spec (§7). -/
def BP_FLAG_INCOMPLETE : Nat := 0x4000

/-- Whether the flag bit(s) `m` are raised in the flags word `w`. -/
def hasFlag (w m : Nat) : Bool := w &&& m != 0

/-- Modelled from the spec (§6, logger collaborator): `bplog` ORs the event
into the caller's flags word and, the event being non-zero, yields a typed
(negative) error as its return value. -/
def bplog (flags event : Nat) : Nat × Int := (flags ||| event, BP_ERROR)

/-- Modulus of the 64-bit unsigned `bp_val_t` values. -/
def BP_VAL_MOD : Nat := 2 ^ 64

/-- Modelled from the spec: largest value encodable in a bundle field
(`BP_MAX_ENCODED_VALUE` of bplib.h), the maximum 64-bit value. -/
def BP_MAX_ENCODED_VALUE : Nat := 2 ^ 64 - 1

/-- Modelled from the spec: sentinel creation time of a sender with
unreliable clock (`BP_UNKNOWN_CREATION_TIME` of bplib.h). -/
def BP_UNKNOWN_CREATION_TIME : Nat := 0

/-- Modelled from the spec: sentinel creation time requesting a
time-to-live extension (`BP_TTL_CREATION_TIME` of bplib.h). -/
def BP_TTL_CREATION_TIME : Nat := 1

/-- Modelled from the spec: the hardcoded "best effort" lifetime used when
the clock is unreliable (`BP_BEST_EFFORT_LIFETIME` of bplib.h); the value is
arbitrary, chosen to fit the canonical 6-byte lifetime SDNV. -/
def BP_BEST_EFFORT_LIFETIME : Nat := 2 ^ 42 - 1

/-- From the spec wire format (§6): payload block type byte. -/
def BP_PAY_BLK_TYPE : Nat := 0x01

/-- From the spec wire format (§6): CTEB block type byte. -/
def BP_CTEB_BLK_TYPE : Nat := 0x0A

/-- From the spec wire format (§6): BIB block type byte. -/
def BP_BIB_BLK_TYPE : Nat := 0x0D

/-- From the spec wire format (§6): REPLICATE-ALL-FRAGMENTS block flag. -/
def BP_BLK_REPALL_MASK : Nat := 0x01

/-- From the spec wire format (§6): NOTIFY-ON-NOPROC block flag. -/
def BP_BLK_NOTIFYNOPROC_MASK : Nat := 0x02

/-- From the spec wire format (§6): DELETE-BUNDLE-ON-NOPROC block flag. -/
def BP_BLK_DELETENOPROC_MASK : Nat := 0x04

/-- From the spec wire format (§6): DROP-BLOCK-ON-NOPROC block flag. -/
def BP_BLK_DROPNOPROC_MASK : Nat := 0x10

/-- From the spec wire format (§6): FORWARD-WITHOUT-PROC block flag. -/
def BP_BLK_FORWARDNOPROC_MASK : Nat := 0x20

/-- From the spec (§3, BIB): cipher suite id of CRC-16/X.25. -/
def BP_BIB_CRC16_X25 : Nat := 0

/-- From the spec (§3, BIB): cipher suite id of CRC-32/Castagnoli. -/
def BP_BIB_CRC32_CASTAGNOLI : Nat := 1

/-- Modelled from the spec (§3, BIB): the integrity-signature
security-result-type marker (`BP_BIB_INTEGRITY_SIGNATURE` of bplib.h);
value arbitrary. -/
def BP_BIB_INTEGRITY_SIGNATURE : Nat := 5

/-- Modelled from the spec (§3): ACS administrative record type byte
(`BP_ACS_REC_TYPE` of bplib.h); value arbitrary but distinct. -/
def BP_ACS_REC_TYPE : Nat := 4

/-- Modelled from the spec: custody-signal record type byte; arbitrary. -/
def BP_CS_REC_TYPE : Nat := 2

/-- Modelled from the spec: status-report record type byte; arbitrary. -/
def BP_STAT_REC_TYPE : Nat := 3

/-- Modelled from the spec: the null endpoint number (`BP_IPN_NULL`). -/
def BP_IPN_NULL : Nat := 0

/-- Modelled from the spec (§3): the maximum representable table index
(`BP_MAX_INDEX` of bplib.h); upper bound of the active-table capacity. -/
def BP_MAX_INDEX : Nat := 65535

/-- Storage id marking a vacant active-table slot (`BP_SID_VACANT`); the
table is calloc-zeroed in src/common/cbuf.c, so the vacant marker is 0. -/
def BP_SID_VACANT : Nat := 0

/-! ## Active-bundle table (src/common/cbuf.c)

The C `bp_active_bundle_t` record and `cbuf_t` table.  Machine integers
are Nat/Int; `bp_val_t` arithmetic wraps modulo `2^64`.  An operation
whose behaviour is undefined in C (the modulo by a zero table size)
returns `none`. -/

/-- `bp_active_bundle_t` of src/lib/bundle_types.h. -/
structure ActiveBundle where
  sid : Nat
  retx : Nat
  cid : Nat
deriving DecidableEq

/-- `cbuf_t`: table, size, entry count and the two CID cursors. -/
structure Cbuf where
  table : List ActiveBundle
  size : Nat
  num_entries : Int
  oldest_cid : Nat
  newest_cid : Nat
deriving DecidableEq

/-- `cbuf_create` (src/common/cbuf.c:37): range-check the requested size
(negative or above `BP_MAX_INDEX` is rejected with `BP_ERROR`, here `none`)
and initialize a zeroed table. -/
def cbuf_create (size : Int) : Option Cbuf :=
  if size < 0 ∨ size > (BP_MAX_INDEX : Int) then
    none
  else
    some { table := List.replicate size.toNat ⟨0, 0, 0⟩
           size := size.toNat
           num_entries := 0
           oldest_cid := 0
           newest_cid := 0 }

/-- `cbuf_add` (src/common/cbuf.c:89).  `none` models the undefined
modulo by a zero size. -/
def cbuf_add (c : Cbuf) (b : ActiveBundle) (overwrite : Bool) :
    Option (Cbuf × Int) :=
  if c.size = 0 then none else
  if ¬overwrite ∧ (c.table.getD (b.cid % c.size) ⟨0, 0, 0⟩).sid ≠ BP_SID_VACANT ∧
      (c.table.getD (b.cid % c.size) ⟨0, 0, 0⟩).cid = b.cid then
    some (c, BP_DUPLICATE)
  else
    some ({ c with
            table := c.table.set (b.cid % c.size) b
            num_entries := c.num_entries + 1
            newest_cid :=
              if ¬overwrite then (b.cid + 1) % BP_VAL_MOD else c.newest_cid },
          BP_SUCCESS)

/-- One iteration step of the `cbuf_next` scan (src/common/cbuf.c:114):
the fuel counts down the cyclic distance from `oldest_cid` to
`newest_cid`, which is exactly the number of times the C loop can test
`oldest_cid != newest_cid` and still find them different. -/
def cbuf_next_loop : Nat → Cbuf → Option (Cbuf × Option ActiveBundle × Int)
  | 0, c => some (c, none, BP_TIMEOUT)
  | fuel + 1, c =>
      if c.size = 0 then none else
      if (c.table.getD (c.oldest_cid % c.size) ⟨0, 0, 0⟩).sid = BP_SID_VACANT then
        cbuf_next_loop fuel { c with oldest_cid := (c.oldest_cid + 1) % BP_VAL_MOD }
      else
        some (c, some (c.table.getD (c.oldest_cid % c.size) ⟨0, 0, 0⟩), BP_SUCCESS)

/-- Cyclic distance from `oldest_cid` up to `newest_cid` in `bp_val_t`
arithmetic. -/
def cbufDistance (c : Cbuf) : Nat :=
  (c.newest_cid + BP_VAL_MOD - c.oldest_cid) % BP_VAL_MOD

/-- `cbuf_next` (src/common/cbuf.c:112). -/
def cbuf_next (c : Cbuf) : Option (Cbuf × Option ActiveBundle × Int) :=
  cbuf_next_loop (cbufDistance c) c

/-- `cbuf_remove` (src/common/cbuf.c:135). -/
def cbuf_remove (c : Cbuf) (cid : Nat) :
    Option (Cbuf × Option ActiveBundle × Int) :=
  if c.size = 0 then none else
  if (c.table.getD (cid % c.size) ⟨0, 0, 0⟩).sid ≠ BP_SID_VACANT ∧
      (c.table.getD (cid % c.size) ⟨0, 0, 0⟩).cid = cid then
    some ({ c with
            table := c.table.set (cid % c.size)
              ⟨BP_SID_VACANT, (c.table.getD (cid % c.size) ⟨0, 0, 0⟩).retx,
                (c.table.getD (cid % c.size) ⟨0, 0, 0⟩).cid⟩
            num_entries := c.num_entries - 1 },
          some (c.table.getD (cid % c.size) ⟨0, 0, 0⟩), BP_SUCCESS)
  else
    some (c, none, BP_ERROR)

/-- `cbuf_available` (src/common/cbuf.c:153). -/
def cbuf_available (c : Cbuf) (cid : Nat) : Option Int :=
  if c.size = 0 then none else
  if (c.table.getD (cid % c.size) ⟨0, 0, 0⟩).sid = BP_SID_VACANT then
    some BP_SUCCESS
  else
    some BP_ERROR

/-- `cbuf_count` (src/common/cbuf.c:169). -/
def cbuf_count (c : Cbuf) : Int := c.num_entries

/-- An operation of the active-table API exercised by a trace. -/
inductive CbufOp where
  | add (b : ActiveBundle) (overwrite : Bool)
  | remove (cid : Nat)
  | next
deriving DecidableEq

/-- Run a trace of operations, propagating the undefined marker. -/
def cbuf_run : Cbuf → List CbufOp → Option Cbuf
  | c, [] => some c
  | c, CbufOp.add b ow :: rest =>
      match cbuf_add c b ow with
      | some (c', _) => cbuf_run c' rest
      | none => none
  | c, CbufOp.remove cid :: rest =>
      match cbuf_remove c cid with
      | some (c', _, _) => cbuf_run c' rest
      | none => none
  | c, CbufOp.next :: rest =>
      match cbuf_next c with
      | some (c', _, _) => cbuf_run c' rest
      | none => none

/-- A trace is safe when every `add` either finds its slot vacant and
carries a non-vacant storage id, or is rejected as a duplicate.  (The
code increments `num_entries` even when an `add` overwrites an occupied
slot, so unrestricted traces break the counting invariant.) -/
def cbuf_safe : Cbuf → List CbufOp → Bool
  | _, [] => true
  | c, CbufOp.add b ow :: rest =>
      if c.size = 0 then false else
      (((c.table.getD (b.cid % c.size) ⟨0, 0, 0⟩).sid == BP_SID_VACANT &&
          b.sid != BP_SID_VACANT) ||
        (!ow && (c.table.getD (b.cid % c.size) ⟨0, 0, 0⟩).sid != BP_SID_VACANT &&
          (c.table.getD (b.cid % c.size) ⟨0, 0, 0⟩).cid == b.cid)) &&
      (match cbuf_add c b ow with
       | some (c', _) => cbuf_safe c' rest
       | none => false)
  | c, CbufOp.remove cid :: rest =>
      match cbuf_remove c cid with
      | some (c', _, _) => cbuf_safe c' rest
      | none => false
  | c, CbufOp.next :: rest =>
      match cbuf_next c with
      | some (c', _, _) => cbuf_safe c' rest
      | none => false

/-- Number of non-vacant slots of a table. -/
def occupiedCount (t : List ActiveBundle) : Nat :=
  t.countP (fun s => s.sid != BP_SID_VACANT)

/-- The active-table invariant claimed by the spec: `num_entries` counts
the non-vacant slots, and every non-vacant slot `i` holds a record whose
`cid mod capacity` is `i`. -/
def CbufInv (c : Cbuf) : Prop :=
  c.table.length = c.size ∧
  c.num_entries = (occupiedCount c.table : Int) ∧
  ∀ i < c.size,
    (c.table.getD i ⟨0, 0, 0⟩).sid ≠ BP_SID_VACANT →
    (c.table.getD i ⟨0, 0, 0⟩).cid % c.size = i

instance (c : Cbuf) : Decidable (CbufInv c) := by
  unfold CbufInv
  infer_instance

/-! ### Helper lemmas about the table representation -/

lemma getD_set_self : ∀ (t : List ActiveBundle) (i : Nat) (b : ActiveBundle),
    i < t.length → (t.set i b).getD i ⟨0, 0, 0⟩ = b := by
  intro t
  induction t with
  | nil => intro i b h; simp at h
  | cons a tl ih =>
      intro i b h
      cases i with
      | zero => rfl
      | succ j => exact ih j b (by simpa using h)

lemma getD_set_ne : ∀ (t : List ActiveBundle) (i j : Nat) (b : ActiveBundle),
    i ≠ j → (t.set i b).getD j ⟨0, 0, 0⟩ = t.getD j ⟨0, 0, 0⟩ := by
  intro t
  induction t with
  | nil => intro i j b _; simp [List.set]
  | cons a tl ih =>
      intro i j b hij
      cases i with
      | zero =>
          cases j with
          | zero => exact absurd rfl hij
          | succ k => rfl
      | succ i' =>
          cases j with
          | zero => rfl
          | succ k => exact ih i' k b (fun h => hij (by rw [h]))

lemma occupiedCount_set : ∀ (t : List ActiveBundle) (i : Nat) (b : ActiveBundle),
    i < t.length →
    occupiedCount (t.set i b) +
      (if (t.getD i ⟨0, 0, 0⟩).sid != BP_SID_VACANT then 1 else 0) =
    occupiedCount t + (if b.sid != BP_SID_VACANT then 1 else 0) := by
  intro t
  induction t with
  | nil => intro i b h; simp at h
  | cons a tl ih =>
      intro i b h
      cases i with
      | zero =>
          simp only [List.set, occupiedCount, List.countP_cons, List.getD_cons_zero]
          omega
      | succ j =>
          have hj : j < tl.length := by simpa using h
          have htl := ih j b hj
          simp only [List.set, occupiedCount, List.countP_cons,
            List.getD_cons_succ] at htl ⊢
          omega

lemma occupiedCount_replicate (n : Nat) :
    occupiedCount (List.replicate n ⟨0, 0, 0⟩) = 0 := by
  induction n with
  | zero => rfl
  | succ m ih =>
      rw [List.replicate_succ]
      unfold occupiedCount at ih ⊢
      rw [List.countP_cons]
      simp [ih, BP_SID_VACANT]

lemma getD_replicate (n i : Nat) :
    (List.replicate n (⟨0, 0, 0⟩ : ActiveBundle)).getD i ⟨0, 0, 0⟩ = ⟨0, 0, 0⟩ := by
  induction n generalizing i with
  | zero => simp [List.replicate]
  | succ m ih =>
      cases i with
      | zero => rfl
      | succ j => exact ih j

/-! ### Invariant preservation -/

lemma cbufInv_create (sz : Int) (c₀ : Cbuf) (h : cbuf_create sz = some c₀) :
    CbufInv c₀ := by
  unfold cbuf_create at h
  split at h
  · exact absurd h (by simp)
  · cases h
    refine ⟨by simp, ?_, ?_⟩
    · simp [occupiedCount_replicate]
    · intro i _ hocc
      rw [getD_replicate] at hocc
      exact absurd rfl hocc

lemma cbuf_add_inv (c : Cbuf) (b : ActiveBundle) (ow : Bool) (c' : Cbuf) (ret : Int)
    (hinv : CbufInv c)
    (hsafe :
      ((c.table.getD (b.cid % c.size) ⟨0, 0, 0⟩).sid = BP_SID_VACANT ∧
        b.sid ≠ BP_SID_VACANT) ∨
      (¬(ow = true) ∧ (c.table.getD (b.cid % c.size) ⟨0, 0, 0⟩).sid ≠ BP_SID_VACANT ∧
        (c.table.getD (b.cid % c.size) ⟨0, 0, 0⟩).cid = b.cid))
    (h : cbuf_add c b ow = some (c', ret)) : CbufInv c' := by
  obtain ⟨hlen, hcnt, hpos⟩ := hinv
  unfold cbuf_add at h
  by_cases hsz : c.size = 0
  · rw [if_pos hsz] at h; exact absurd h (by simp)
  rw [if_neg hsz] at h
  split at h
  · -- duplicate: the state is unchanged
    cases h
    exact ⟨hlen, hcnt, hpos⟩
  · -- the slot is written and num_entries incremented
    rename_i hnotdup
    cases h
    have hati : b.cid % c.size < c.table.length := by
      rw [hlen]; exact Nat.mod_lt _ (Nat.pos_of_ne_zero hsz)
    -- under safety, the slot must have been vacant (the duplicate branch
    -- captures the other disjunct)
    have hvac : (c.table.getD (b.cid % c.size) ⟨0, 0, 0⟩).sid = BP_SID_VACANT ∧
        b.sid ≠ BP_SID_VACANT := by
      rcases hsafe with h1 | h2
      · exact h1
      · exact absurd ⟨h2.1, h2.2.1, h2.2.2⟩ hnotdup
    refine ⟨by simpa using hlen, ?_, ?_⟩
    · have hset := occupiedCount_set c.table (b.cid % c.size) b hati
      rw [if_neg (by rw [hvac.1]; simp), if_pos (bne_iff_ne.mpr hvac.2)] at hset
      simp only
      omega
    · intro i hi hocc
      simp only at hi hocc ⊢
      by_cases hieq : b.cid % c.size = i
      · rw [← hieq] at hi hocc ⊢
        rw [getD_set_self _ _ _ hati]
      · rw [getD_set_ne _ _ _ _ hieq] at hocc ⊢
        exact hpos i hi hocc

lemma cbuf_remove_inv (c : Cbuf) (cid : Nat) (c' : Cbuf) (rb : Option ActiveBundle)
    (ret : Int) (hinv : CbufInv c)
    (h : cbuf_remove c cid = some (c', rb, ret)) : CbufInv c' := by
  obtain ⟨hlen, hcnt, hpos⟩ := hinv
  unfold cbuf_remove at h
  by_cases hsz : c.size = 0
  · rw [if_pos hsz] at h; exact absurd h (by simp)
  rw [if_neg hsz] at h
  split at h
  · rename_i hocc
    cases h
    have hati : cid % c.size < c.table.length := by
      rw [hlen]; exact Nat.mod_lt _ (Nat.pos_of_ne_zero hsz)
    refine ⟨by simpa using hlen, ?_, ?_⟩
    · have hset := occupiedCount_set c.table (cid % c.size)
        ⟨BP_SID_VACANT, (c.table.getD (cid % c.size) ⟨0, 0, 0⟩).retx,
          (c.table.getD (cid % c.size) ⟨0, 0, 0⟩).cid⟩ hati
      rw [if_pos (bne_iff_ne.mpr hocc.1), if_neg (by simp)] at hset
      simp only
      omega
    · intro i hi hocc2
      simp only at hi hocc2 ⊢
      by_cases hieq : cid % c.size = i
      · rw [← hieq] at hocc2
        rw [getD_set_self _ _ _ hati] at hocc2
        exact absurd rfl hocc2
      · rw [getD_set_ne _ _ _ _ hieq] at hocc2 ⊢
        exact hpos i hi hocc2
  · cases h
    exact ⟨hlen, hcnt, hpos⟩

lemma cbuf_next_loop_preserve : ∀ (fuel : Nat) (c : Cbuf)
    (r : Cbuf × Option ActiveBundle × Int), cbuf_next_loop fuel c = some r →
    r.1.table = c.table ∧ r.1.num_entries = c.num_entries ∧ r.1.size = c.size := by
  intro fuel
  induction fuel with
  | zero => intro c r h; cases h; exact ⟨rfl, rfl, rfl⟩
  | succ n ih =>
      intro c r h
      unfold cbuf_next_loop at h
      by_cases hsz : c.size = 0
      · rw [if_pos hsz] at h; exact absurd h (by simp)
      rw [if_neg hsz] at h
      split at h
      · have := ih _ _ h
        simpa using this
      · cases h; exact ⟨rfl, rfl, rfl⟩

lemma cbuf_next_inv (c : Cbuf) (c' : Cbuf) (rb : Option ActiveBundle) (ret : Int)
    (hinv : CbufInv c) (h : cbuf_next c = some (c', rb, ret)) : CbufInv c' := by
  obtain ⟨hlen, hcnt, hpos⟩ := hinv
  unfold cbuf_next at h
  obtain ⟨ht, hn, hs⟩ := cbuf_next_loop_preserve _ _ _ h
  simp only at ht hn hs
  rw [CbufInv, ht, hn, hs]
  exact ⟨hlen, hcnt, hpos⟩

lemma cbufInv_run : ∀ (ops : List CbufOp) (c : Cbuf), CbufInv c →
    cbuf_safe c ops = true → ∀ c', cbuf_run c ops = some c' → CbufInv c' := by
  intro ops
  induction ops with
  | nil => intro c hinv _ c' h; cases h; exact hinv
  | cons op rest ih =>
      intro c hinv hsafe c' hrun
      cases op with
      | add b ow =>
          unfold cbuf_safe at hsafe
          by_cases hsz : c.size = 0
          · rw [if_pos hsz] at hsafe; exact absurd hsafe (by simp)
          rw [if_neg hsz] at hsafe
          simp only [Bool.and_eq_true, Bool.or_eq_true, beq_iff_eq, bne_iff_ne,
            Bool.not_eq_eq_eq_not, Bool.not_true] at hsafe
          unfold cbuf_run at hrun
          cases hadd : cbuf_add c b ow with
          | none => rw [hadd] at hrun; exact absurd hrun (by simp)
          | some p =>
              rw [hadd] at hrun hsafe
              obtain ⟨c₁, ret⟩ := p
              have hsafe1 := hsafe.1
              have hsafe2 := hsafe.2
              have hstep : CbufInv c₁ := by
                refine cbuf_add_inv c b ow c₁ ret hinv ?_ hadd
                rcases hsafe1 with h1 | h2
                · exact Or.inl ⟨h1.1, h1.2⟩
                · refine Or.inr ⟨?_, h2.1.2, h2.2⟩
                  intro how
                  rw [how] at h2
                  simp at h2
              exact ih c₁ hstep hsafe2 c' hrun
      | remove cid =>
          unfold cbuf_safe at hsafe
          unfold cbuf_run at hrun
          cases hrem : cbuf_remove c cid with
          | none => rw [hrem] at hrun; exact absurd hrun (by simp)
          | some p =>
              rw [hrem] at hrun hsafe
              obtain ⟨c₁, rb, ret⟩ := p
              exact ih c₁ (cbuf_remove_inv c cid c₁ rb ret hinv hrem) hsafe c' hrun
      | next =>
          unfold cbuf_safe at hsafe
          unfold cbuf_run at hrun
          cases hnx : cbuf_next c with
          | none => rw [hnx] at hrun; exact absurd hrun (by simp)
          | some p =>
              rw [hnx] at hrun hsafe
              obtain ⟨c₁, rb, ret⟩ := p
              exact ih c₁ (cbuf_next_inv c c₁ rb ret hinv hnx) hsafe c' hrun

/-- C1 (counterexample): on a freshly created table of capacity 2, adding
CID 0 and then CID 2 (same slot, different CID, no overwrite) makes
`num_entries` 2 while only one slot is non-vacant — `cbuf_add` increments
the count even when it overwrites an occupied slot, so the claimed
invariant fails for this add/add trace. -/
theorem C1_counterexample :
    Option.map (fun c => (c.num_entries, occupiedCount c.table))
        ((cbuf_create 2).bind
          (fun c₀ => cbuf_run c₀
            [CbufOp.add ⟨1, 0, 0⟩ false, CbufOp.add ⟨1, 0, 2⟩ false])) =
      some (2, 1) ∧ ((2 : Int) ≠ ((1 : Nat) : Int)) := by
  exact ⟨by decide, by decide⟩

/-- C1 (amended): after any sequence of `add`/`remove`/`next` operations on
a freshly created table in which every `add` either stores a record with a
non-vacant storage id into a vacant slot or is rejected as a duplicate,
`num_entries` equals the number of non-vacant slots and every non-vacant
slot at index `i` holds a record whose `cid mod capacity` equals `i`. -/
theorem C1_active_table_invariant (sz : Int) (ops : List CbufOp) (c₀ c' : Cbuf)
    (hcreate : cbuf_create sz = some c₀)
    (hsafe : cbuf_safe c₀ ops = true)
    (hrun : cbuf_run c₀ ops = some c') : CbufInv c' :=
  cbufInv_run ops c₀ (cbufInv_create sz c₀ hcreate) hsafe c' hrun

/-- C1 (witness): the amended invariant theorem applied to a concrete
add/next/remove trace on a capacity-2 table. -/
theorem C1_active_table_invariant_witness :
    cbuf_create 2 = some ⟨[⟨0, 0, 0⟩, ⟨0, 0, 0⟩], 2, 0, 0, 0⟩ ∧
    cbuf_safe ⟨[⟨0, 0, 0⟩, ⟨0, 0, 0⟩], 2, 0, 0, 0⟩
      [CbufOp.add ⟨5, 0, 0⟩ false, CbufOp.next, CbufOp.remove 0] = true ∧
    cbuf_run ⟨[⟨0, 0, 0⟩, ⟨0, 0, 0⟩], 2, 0, 0, 0⟩
      [CbufOp.add ⟨5, 0, 0⟩ false, CbufOp.next, CbufOp.remove 0] =
      some ⟨[⟨0, 0, 0⟩, ⟨0, 0, 0⟩], 2, 0, 0, 1⟩ ∧
    CbufInv ⟨[⟨0, 0, 0⟩, ⟨0, 0, 0⟩], 2, 0, 0, 1⟩ := by
  refine ⟨by decide, by decide, by decide, ?_⟩
  exact C1_active_table_invariant 2
    [CbufOp.add ⟨5, 0, 0⟩ false, CbufOp.next, CbufOp.remove 0]
    ⟨[⟨0, 0, 0⟩, ⟨0, 0, 0⟩], 2, 0, 0, 0⟩ ⟨[⟨0, 0, 0⟩, ⟨0, 0, 0⟩], 2, 0, 0, 1⟩
    (by decide) (by decide) (by decide)

/-- C9: `cbuf_create` accepts size 0 (its range check rejects only negative
sizes and sizes above `BP_MAX_INDEX`), and on a table of size 0 every
slot-indexing operation (`add`, `remove`, `available`, and `next` whenever
its scan loop is entered) reaches the unguarded `cid mod size` with a zero
divisor, modelled as the undefined result `none`. -/
theorem C9_modulo_by_zero_unguarded :
    (cbuf_create 0).isSome = true ∧
    (∀ s : Int, cbuf_create s = none ↔ (s < 0 ∨ s > (BP_MAX_INDEX : Int))) ∧
    (∀ c b ow, c.size = 0 → cbuf_add c b ow = none) ∧
    (∀ c cid, c.size = 0 → cbuf_remove c cid = none) ∧
    (∀ c cid, c.size = 0 → cbuf_available c cid = none) ∧
    (∀ c : Cbuf, c.size = 0 → c.oldest_cid < BP_VAL_MOD →
      c.newest_cid < BP_VAL_MOD → c.oldest_cid ≠ c.newest_cid →
      cbuf_next c = none) := by
  refine ⟨by decide, ?_, ?_, ?_, ?_, ?_⟩
  · intro s
    unfold cbuf_create
    constructor
    · intro h
      by_contra hc
      rw [if_neg (by tauto)] at h
      exact absurd h (by simp)
    · intro h
      rw [if_pos h]
  · intro c b ow h
    unfold cbuf_add
    rw [if_pos h]
  · intro c cid h
    unfold cbuf_remove
    rw [if_pos h]
  · intro c cid h
    unfold cbuf_available
    rw [if_pos h]
  · intro c hsz ho hn hne
    have hd : cbufDistance c ≠ 0 := by
      unfold cbufDistance BP_VAL_MOD at *
      omega
    unfold cbuf_next
    cases hdist : cbufDistance c with
    | zero => exact absurd hdist hd
    | succ n =>
        unfold cbuf_next_loop
        rw [if_pos hsz]

/-- C9 (witness): the unguarded-modulo theorem applied at concrete
size-zero tables and a concrete rejected creation size. -/
theorem C9_modulo_by_zero_unguarded_witness :
    cbuf_add ⟨[], 0, 0, 0, 1⟩ ⟨1, 0, 7⟩ false = none ∧
    cbuf_remove ⟨[], 0, 0, 0, 1⟩ 7 = none ∧
    cbuf_available ⟨[], 0, 0, 0, 1⟩ 7 = none ∧
    cbuf_next ⟨[], 0, 0, 0, 1⟩ = none ∧
    cbuf_create (-5) = none := by
  refine ⟨?_, ?_, ?_, ?_, ?_⟩
  · exact C9_modulo_by_zero_unguarded.2.2.1 _ _ _ rfl
  · exact C9_modulo_by_zero_unguarded.2.2.2.1 _ _ rfl
  · exact C9_modulo_by_zero_unguarded.2.2.2.2.1 _ _ rfl
  · exact C9_modulo_by_zero_unguarded.2.2.2.2.2 _ rfl (by decide) (by decide)
      (by decide)
  · exact (C9_modulo_by_zero_unguarded.2.1 (-5)).mpr (by decide)

/-! ## Byte buffers

A byte buffer is a total map from offsets to byte values; the codecs
guard their accesses with the explicit `size` arguments exactly as the C
code does, and `uint8_t` reads are masked to the low byte. -/

/-- A byte buffer (the C `uint8_t *` the codecs work on). -/
def Buf := Nat → Nat

/-- Store one byte. -/
def bufWrite (b : Buf) (i v : Nat) : Buf := fun j => if j = i then v else b j

/-- Store a list of bytes starting at an offset (`memcpy`). -/
def bufWriteList : Buf → Nat → List Nat → Buf
  | b, _, [] => b
  | b, i, v :: vs => bufWriteList (bufWrite b i v) (i + 1) vs

/-- Reconstitute an enclosing buffer from a codec run on the sub-buffer
starting at `off` (the C pointer arithmetic `&buffer[off]`). -/
def blendBuf (outer : Buf) (off : Nat) (inner : Buf) : Buf :=
  fun j => if j < off then outer j else inner (j - off)

/-- The sub-buffer view starting at `off` (`&buffer[off]` for reading). -/
def viewBuf (outer : Buf) (off : Nat) : Buf := fun j => outer (off + j)

/-! ## SDNV codec

Modelled from the spec (§4.1): sdnv.c is not part of the repository
snapshot.  An SDNV is a big-endian base-128 stream whose every byte but
the last has the high bit set; a field is `(value, index, width)` and
`width = 0` asks the codec to choose the minimum width. -/

/-- `bp_field_t` of src/lib/bundle_types.h. -/
structure BpField where
  value : Nat
  index : Nat
  width : Nat
deriving DecidableEq

/-- Modelled from the spec (§4.1): minimum byte width of an SDNV value,
`ceil(bits_used(v)/7)` with at least one byte. -/
def sdnvMinWidth (v : Nat) : Nat :=
  if h : v < 128 then 1 else 1 + sdnvMinWidth (v / 128)
termination_by v
decreasing_by exact Nat.div_lt_self (by omega) (by omega)

/-- Byte `i` (0-based) of the `w`-byte SDNV encoding of `v`: 7 payload
bits, continuation bit on every byte but the last. -/
def sdnvEncodeByte (v w i : Nat) : Nat :=
  let part := (v >>> (7 * (w - 1 - i))) &&& 0x7F
  if i + 1 < w then part ||| 0x80 else part

/-- Modelled from the spec (§4.1): `sdnv_write`.  With `width = 0` the
minimum width is chosen; with `width > 0` the value is right-justified
into exactly that many bytes.  A value that does not fit raises
`SDNV_OVERFLOW` (and the low bits are written); a field extending past
the buffer raises `SDNV_INCOMPLETE` and writes nothing; either way the
returned offset is just past the attempted field.  The C function takes
the field by value, so the chosen width is not written back. -/
def sdnv_write (buf : Buf) (size : Int) (f : BpField) (flags : Nat) :
    Buf × Nat × Int :=
  let w := if f.width = 0 then sdnvMinWidth f.value else f.width
  let flags' :=
    if f.value ≥ 2 ^ (7 * w) then flags ||| BP_FLAG_SDNV_OVERFLOW else flags
  if ((f.index + w : Nat) : Int) > size then
    (buf, flags' ||| BP_FLAG_SDNV_INCOMPLETE, ((f.index + w : Nat) : Int))
  else
    ((List.range w).foldl
       (fun b i => bufWrite b (f.index + i) (sdnvEncodeByte f.value w i)) buf,
     flags', ((f.index + w : Nat) : Int))

/-- Decode `w` bytes of base-128 payload starting at `start` (the
continuation bits are ignored, as only the low 7 bits are data). -/
def sdnvDecode (buf : Buf) (start w : Nat) : Nat :=
  (List.range w).foldl (fun acc i => acc * 128 + (buf (start + i) &&& 0x7F)) 0

/-- Scan for the terminating byte (high bit clear) of an SDNV; `none`
when the buffer ends mid-stream. -/
def sdnvScanAux : Nat → Buf → Nat → Option Nat
  | 0, _, _ => none
  | fuel + 1, buf, i =>
      if buf i &&& 0x80 = 0 then some 1
      else (sdnvScanAux fuel buf (i + 1)).map (· + 1)

/-- Width of the SDNV starting at offset `i` of a buffer of `size` bytes. -/
def sdnvScanWidth (buf : Buf) (size : Int) (i : Nat) : Option Nat :=
  sdnvScanAux (size - (i : Int)).toNat buf i

/-- Modelled from the spec (§4.1): `sdnv_read`.  With `width = 0` the
consumed width is recorded in the field; errors raise `SDNV_OVERFLOW`
(value exceeds 64 bits) or `SDNV_INCOMPLETE` (buffer ends mid-SDNV) and
still advance past the attempted field. -/
def sdnv_read (buf : Buf) (size : Int) (f : BpField) (flags : Nat) :
    BpField × Nat × Int :=
  if f.width = 0 then
    match sdnvScanWidth buf size f.index with
    | some w =>
        let v := sdnvDecode buf f.index w
        let flags' :=
          if v ≥ BP_VAL_MOD then flags ||| BP_FLAG_SDNV_OVERFLOW else flags
        ({ f with value := v % BP_VAL_MOD, width := w }, flags',
         ((f.index + w : Nat) : Int))
    | none => (f, flags ||| BP_FLAG_SDNV_INCOMPLETE, size)
  else
    let v := sdnvDecode buf f.index f.width
    let flags' :=
      if v ≥ BP_VAL_MOD then flags ||| BP_FLAG_SDNV_OVERFLOW else flags
    let flags'' :=
      if ((f.index + f.width : Nat) : Int) > size then
        flags' ||| BP_FLAG_SDNV_INCOMPLETE
      else flags'
    ({ f with value := v % BP_VAL_MOD }, flags'', ((f.index + f.width : Nat) : Int))

/-- Modelled from the spec (§4.1): `sdnv_mask` truncates the value to the
maximum representable in `width` bytes (7 bits per byte). -/
def sdnv_mask (f : BpField) : BpField :=
  { f with value := f.value % 2 ^ (7 * f.width) }

/-! ## CRC service

Modelled from the spec (§2, §6): crc.c is not part of the repository
snapshot.  `bplib_crc_get` computes CRC-16/X.25 (reflected polynomial
0x8408) or CRC-32/Castagnoli (reflected polynomial 0x82F63B78) over a
payload slice. -/

/-- One bit step of a reflected CRC. -/
def crcShiftBit (poly crc : Nat) : Nat :=
  if crc &&& 1 = 1 then (crc >>> 1) ^^^ poly else crc >>> 1

/-- Fold one payload byte into a reflected CRC. -/
def crcByteStep (poly crc byte : Nat) : Nat :=
  (List.range 8).foldl (fun c _ => crcShiftBit poly c) (crc ^^^ (byte &&& 0xFF))

/-- Modelled from the spec: CRC-16/X.25 over a payload slice. -/
def bplib_crc16_x25 (data : List Nat) : Nat :=
  0xFFFF ^^^ data.foldl (crcByteStep 0x8408) 0xFFFF

/-- Modelled from the spec: CRC-32/Castagnoli over a payload slice. -/
def bplib_crc32_castagnoli (data : List Nat) : Nat :=
  0xFFFFFFFF ^^^ data.foldl (crcByteStep 0x82F63B78) 0xFFFFFFFF

/-! ## Bundle integrity block (src/v6/bib.c)

`bp_blk_bib_t`; the C union over the CRC result is modelled as two
fields, of which only the one matching the cipher suite is used. -/

/-- `bp_blk_bib_t`. -/
structure BibBlk where
  bf : BpField
  blklen : BpField
  security_target_count : BpField
  security_target_type : Nat
  cipher_suite_id : BpField
  cipher_suite_flags : BpField
  compound_length : BpField
  security_result_type : Nat
  security_result_length : BpField
  crc16 : Nat
  crc32 : Nat
deriving DecidableEq

/-- `write_crc16` (src/v6/bib.c:44): big-endian store. -/
def write_crc16 (crc : Nat) (buf : Buf) (i : Nat) : Buf :=
  bufWrite (bufWrite buf i ((crc >>> 8) &&& 0xFF)) (i + 1) (crc &&& 0xFF)

/-- `write_crc32` (src/v6/bib.c:57): big-endian store. -/
def write_crc32 (crc : Nat) (buf : Buf) (i : Nat) : Buf :=
  bufWrite (bufWrite (bufWrite (bufWrite buf i ((crc >>> 24) &&& 0xFF))
    (i + 1) ((crc >>> 16) &&& 0xFF)) (i + 2) ((crc >>> 8) &&& 0xFF))
    (i + 3) (crc &&& 0xFF)

/-- `read_crc16` (src/v6/bib.c:71): big-endian load. -/
def read_crc16 (buf : Buf) (i : Nat) : Nat :=
  ((buf i &&& 0xFF) <<< 8) ||| (buf (i + 1) &&& 0xFF)

/-- `read_crc32` (src/v6/bib.c:85): big-endian load. -/
def read_crc32 (buf : Buf) (i : Nat) : Nat :=
  ((buf i &&& 0xFF) <<< 24) ||| ((buf (i + 1) &&& 0xFF) <<< 16) |||
    ((buf (i + 2) &&& 0xFF) <<< 8) ||| (buf (i + 3) &&& 0xFF)

/-- The SDNV-reading phase of `bib_read` (src/v6/bib.c:136-194), for both
values of `update_indices`; `none` is the early "terminated prematurely"
return.  Yields the populated block, the final `bytes_read`, and the
accumulated sdnv flags word. -/
def bib_read_fields (buf : Buf) (size : Int) (bib : BibBlk) (upd : Bool) :
    Option (BibBlk × Int × Nat) :=
  if ¬upd then
    let r1 := sdnv_read buf size bib.bf 0
    let r2 := sdnv_read buf size bib.blklen r1.2.1
    let r3 := sdnv_read buf size bib.security_target_count r2.2.1
    if r3.2.2 + 1 > size then none
    else
      let stt := buf r3.2.2.toNat &&& 0xFF
      let r4 := sdnv_read buf size bib.cipher_suite_id r3.2.1
      let r5 := sdnv_read buf size bib.cipher_suite_flags r4.2.1
      let r6 := sdnv_read buf size bib.compound_length r5.2.1
      if r6.2.2 + 1 > size then none
      else
        let srt := buf r6.2.2.toNat &&& 0xFF
        let r7 := sdnv_read buf size bib.security_result_length r6.2.1
        some ({ bib with
                bf := r1.1
                blklen := r2.1
                security_target_count := r3.1
                security_target_type := stt
                cipher_suite_id := r4.1
                cipher_suite_flags := r5.1
                compound_length := r6.1
                security_result_type := srt
                security_result_length := r7.1 },
              r7.2.2, r7.2.1)
  else
    let r1 := sdnv_read buf size ⟨bib.bf.value, 1, 0⟩ 0
    let r2 := sdnv_read buf size ⟨bib.blklen.value, r1.2.2.toNat, 0⟩ r1.2.1
    let r3 := sdnv_read buf size
      ⟨bib.security_target_count.value, r2.2.2.toNat, 0⟩ r2.2.1
    if r3.2.2 + 1 > size then none
    else
      let stt := buf r3.2.2.toNat &&& 0xFF
      let r4 := sdnv_read buf size
        ⟨bib.cipher_suite_id.value, r3.2.2.toNat + 1, 0⟩ r3.2.1
      let r5 := sdnv_read buf size
        ⟨bib.cipher_suite_flags.value, r4.2.2.toNat, 0⟩ r4.2.1
      let r6 := sdnv_read buf size
        ⟨bib.compound_length.value, r5.2.2.toNat, 0⟩ r5.2.1
      if r6.2.2 + 1 > size then none
      else
        let srt := buf r6.2.2.toNat &&& 0xFF
        let r7 := sdnv_read buf size
          ⟨bib.security_result_length.value, r6.2.2.toNat + 1, 0⟩ r6.2.1
        some ({ bib with
                bf := r1.1
                blklen := r2.1
                security_target_count := r3.1
                security_target_type := stt
                cipher_suite_id := r4.1
                cipher_suite_flags := r5.1
                compound_length := r6.1
                security_result_type := srt
                security_result_length := r7.1 },
              r7.2.2, r7.2.1)

/-- `bib_read` (src/v6/bib.c:117): parse, then validate target type,
result type and cipher suite, then read the CRC bytes; the sdnv flags
accumulated during parsing fail the call last ("success oriented error
checking").  Returns the block, the flags word, and the byte count or a
negative error. -/
def bib_read (buf : Buf) (size : Int) (bib : BibBlk) (upd : Bool) (flags : Nat) :
    BibBlk × Nat × Int :=
  if size < 1 then
    (bib, (bplog flags BP_FLAG_FAILED_TO_PARSE).1, BP_ERROR)
  else if buf 0 &&& 0xFF ≠ BP_BIB_BLK_TYPE then
    (bib, (bplog flags BP_FLAG_FAILED_TO_PARSE).1, BP_ERROR)
  else
    match bib_read_fields buf size bib upd with
    | none => (bib, (bplog flags BP_FLAG_FAILED_TO_PARSE).1, BP_ERROR)
    | some (b, n, sf) =>
      if b.security_target_type ≠ BP_PAY_BLK_TYPE then
        (b, (bplog flags BP_FLAG_INVALID_BIB_TARGET_TYPE).1, BP_ERROR)
      else if b.security_result_type ≠ BP_BIB_INTEGRITY_SIGNATURE then
        (b, (bplog flags BP_FLAG_INVALID_BIB_RESULT_TYPE).1, BP_ERROR)
      else if b.cipher_suite_id.value = BP_BIB_CRC16_X25 then
        if b.security_result_length.value ≠ 2 ∨ n + 2 > size then
          (b, (bplog flags BP_FLAG_FAILED_TO_PARSE).1, BP_ERROR)
        else if sf ≠ 0 then
          ({ b with crc16 := read_crc16 buf n.toNat },
           (bplog (flags ||| sf) BP_FLAG_FAILED_TO_PARSE).1, BP_ERROR)
        else
          ({ b with crc16 := read_crc16 buf n.toNat }, flags, n + 2)
      else if b.cipher_suite_id.value = BP_BIB_CRC32_CASTAGNOLI then
        if b.security_result_length.value ≠ 4 ∨ n + 4 > size then
          (b, (bplog flags BP_FLAG_FAILED_TO_PARSE).1, BP_ERROR)
        else if sf ≠ 0 then
          ({ b with crc32 := read_crc32 buf n.toNat },
           (bplog (flags ||| sf) BP_FLAG_FAILED_TO_PARSE).1, BP_ERROR)
        else
          ({ b with crc32 := read_crc32 buf n.toNat }, flags, n + 4)
      else
        (b, (bplog flags BP_FLAG_INVALID_CIPHER_SUITEID).1, BP_ERROR)

/-- The canonical-layout (`update_indices = false`) write phase of
`bib_write` (src/v6/bib.c:299-322 and 359-384), after the block flags have
been patched and the per-cipher lengths set. -/
def bib_write_fixed (buf : Buf) (size : Int) (b : BibBlk) (flags : Nat) :
    Buf × BibBlk × Nat × Int :=
  let w1 := sdnv_write buf size b.bf 0
  let w2 := sdnv_write w1.1 size b.blklen w1.2.1
  let w3 := sdnv_write w2.1 size b.security_target_count w2.2.1
  if w3.2.2 + 1 > size then
    (w3.1, b, (bplog flags BP_FLAG_FAILED_TO_PARSE).1, BP_ERROR)
  else
    let bufD := bufWrite w3.1 w3.2.2.toNat b.security_target_type
    let w4 := sdnv_write bufD size b.cipher_suite_id w3.2.1
    let w5 := sdnv_write w4.1 size b.cipher_suite_flags w4.2.1
    let w6 := sdnv_write w5.1 size b.compound_length w5.2.1
    if w6.2.2 + 1 > size then
      (w6.1, b, (bplog flags BP_FLAG_FAILED_TO_PARSE).1, BP_ERROR)
    else
      let bufH := bufWrite w6.1 w6.2.2.toNat b.security_result_type
      let w7 := sdnv_write bufH size b.security_result_length w6.2.1
      let bufJ :=
        if b.cipher_suite_id.value = BP_BIB_CRC16_X25 then
          write_crc16 b.crc16 w7.1 w7.2.2.toNat
        else
          write_crc32 b.crc32 w7.1 w7.2.2.toNat
      let nFin : Int :=
        if b.cipher_suite_id.value = BP_BIB_CRC16_X25 then w7.2.2 + 2
        else w7.2.2 + 4
      let b3 := { b with blklen :=
        ⟨(nFin - (b.security_target_count.index : Int)).toNat,
          b.blklen.index, b.blklen.width⟩ }
      let w8 := sdnv_write bufJ size b3.blklen w7.2.1
      if w8.2.1 ≠ 0 then (w8.1, b3, flags ||| w8.2.1, BP_ERROR)
      else (w8.1, b3, flags, nFin)

/-- The layout-and-write (`update_indices = true`) phase of `bib_write`
(src/v6/bib.c:324-357 and 359-384): widths are cleared so the codec picks
minimal widths, indices are recorded as the writes advance (the C code
passes fields to `sdnv_write` by value, so the chosen widths stay 0 in
the struct). -/
def bib_write_layout (buf : Buf) (size : Int) (b : BibBlk) (flags : Nat) :
    Buf × BibBlk × Nat × Int :=
  let bf0 : BpField := ⟨b.bf.value, 1, 0⟩
  let w1 := sdnv_write buf size bf0 0
  let bl0 : BpField := ⟨b.blklen.value, w1.2.2.toNat, 0⟩
  let w2 := sdnv_write w1.1 size bl0 w1.2.1
  let stc0 : BpField := ⟨b.security_target_count.value, w2.2.2.toNat, 0⟩
  let w3 := sdnv_write w2.1 size stc0 w2.2.1
  if w3.2.2 + 1 > size then
    (w3.1, b, (bplog flags BP_FLAG_FAILED_TO_PARSE).1, BP_ERROR)
  else
    let bufD := bufWrite w3.1 w3.2.2.toNat b.security_target_type
    let cs0 : BpField := ⟨b.cipher_suite_id.value, w3.2.2.toNat + 1, 0⟩
    let w4 := sdnv_write bufD size cs0 w3.2.1
    let cf0 : BpField := ⟨b.cipher_suite_flags.value, w4.2.2.toNat, 0⟩
    let w5 := sdnv_write w4.1 size cf0 w4.2.1
    let cl0 : BpField := ⟨b.compound_length.value, w5.2.2.toNat, 0⟩
    let w6 := sdnv_write w5.1 size cl0 w5.2.1
    if w6.2.2 + 1 > size then
      (w6.1, b, (bplog flags BP_FLAG_FAILED_TO_PARSE).1, BP_ERROR)
    else
      let bufH := bufWrite w6.1 w6.2.2.toNat b.security_result_type
      let srl0 : BpField := ⟨b.security_result_length.value, w6.2.2.toNat + 1, 0⟩
      let w7 := sdnv_write bufH size srl0 w6.2.1
      let bufJ :=
        if b.cipher_suite_id.value = BP_BIB_CRC16_X25 then
          write_crc16 b.crc16 w7.1 w7.2.2.toNat
        else
          write_crc32 b.crc32 w7.1 w7.2.2.toNat
      let nFin : Int :=
        if b.cipher_suite_id.value = BP_BIB_CRC16_X25 then w7.2.2 + 2
        else w7.2.2 + 4
      let b2 := { b with
                  bf := bf0
                  blklen := ⟨(nFin - (stc0.index : Int)).toNat, bl0.index, 0⟩
                  security_target_count := stc0
                  cipher_suite_id := cs0
                  cipher_suite_flags := cf0
                  compound_length := cl0
                  security_result_length := srl0 }
      let w8 := sdnv_write bufJ size b2.blklen w7.2.1
      if w8.2.1 ≠ 0 then (w8.1, b2, flags ||| w8.2.1, BP_ERROR)
      else (w8.1, b2, flags, nFin)

/-- `bib_write` (src/v6/bib.c:255): validate the target type, result type
and cipher suite, set the per-cipher compound/result lengths, OR the
REPLICATE-ALL-FRAGMENTS mask into the block flags, and emit the block.
Returns the buffer, the (mutated) block, the flags word, and the byte
count or a negative error. -/
def bib_write (buf : Buf) (size : Int) (bib : BibBlk) (upd : Bool) (flags : Nat) :
    Buf × BibBlk × Nat × Int :=
  if size < 1 then
    (buf, bib, (bplog flags BP_FLAG_FAILED_TO_PARSE).1, BP_ERROR)
  else if bib.security_target_type ≠ BP_PAY_BLK_TYPE then
    (buf, bib, (bplog flags BP_FLAG_INVALID_BIB_TARGET_TYPE).1, BP_ERROR)
  else if bib.security_result_type ≠ BP_BIB_INTEGRITY_SIGNATURE then
    (buf, bib, (bplog flags BP_FLAG_INVALID_BIB_RESULT_TYPE).1, BP_ERROR)
  else if bib.cipher_suite_id.value ≠ BP_BIB_CRC16_X25 ∧
      bib.cipher_suite_id.value ≠ BP_BIB_CRC32_CASTAGNOLI then
    (buf, bib, (bplog flags BP_FLAG_INVALID_CIPHER_SUITEID).1, BP_ERROR)
  else
    let b1 :=
      if bib.cipher_suite_id.value = BP_BIB_CRC16_X25 then
        { bib with
          compound_length :=
            ⟨4, bib.compound_length.index, bib.compound_length.width⟩
          security_result_length :=
            ⟨2, bib.security_result_length.index, bib.security_result_length.width⟩ }
      else
        { bib with
          compound_length :=
            ⟨6, bib.compound_length.index, bib.compound_length.width⟩
          security_result_length :=
            ⟨4, bib.security_result_length.index, bib.security_result_length.width⟩ }
    let b2 := { b1 with
                bf := ⟨b1.bf.value ||| BP_BLK_REPALL_MASK, b1.bf.index, b1.bf.width⟩ }
    let buf0 := bufWrite buf 0 BP_BIB_BLK_TYPE
    if upd then bib_write_layout buf0 size b2 flags
    else bib_write_fixed buf0 size b2 flags

/-- `bib_update` (src/v6/bib.c:398): recompute the payload CRC and store
it both in the block structure and, big-endian, at the security-result
position of the buffer. -/
def bib_update (buf : Buf) (size : Int) (payload : List Nat) (bib : BibBlk)
    (flags : Nat) : Buf × BibBlk × Nat × Int :=
  let room := bib.security_result_length.index + bib.security_result_length.width +
    bib.security_result_length.value
  if size < (room : Int) then
    (buf, bib, (bplog flags BP_FLAG_FAILED_TO_PARSE).1, BP_ERROR)
  else if bib.cipher_suite_id.value = BP_BIB_CRC16_X25 then
    let c := bplib_crc16_x25 payload &&& 0xFFFF
    (write_crc16 c buf
       (bib.security_result_length.index + bib.security_result_length.width),
     { bib with crc16 := c }, flags, BP_SUCCESS)
  else if bib.cipher_suite_id.value = BP_BIB_CRC32_CASTAGNOLI then
    let c := bplib_crc32_castagnoli payload &&& 0xFFFFFFFF
    (write_crc32 c buf
       (bib.security_result_length.index + bib.security_result_length.width),
     { bib with crc32 := c }, flags, BP_SUCCESS)
  else
    (buf, bib, (bplog flags BP_FLAG_INVALID_CIPHER_SUITEID).1, BP_ERROR)

/-- `bib_verify` (src/v6/bib.c:446): recompute the payload CRC and compare
it with the stored security result. -/
def bib_verify (payload : List Nat) (bib : BibBlk) (flags : Nat) : Nat × Int :=
  if bib.cipher_suite_id.value = BP_BIB_CRC16_X25 then
    if bib.crc16 ≠ (bplib_crc16_x25 payload &&& 0xFFFF) then
      bplog flags BP_FLAG_FAILED_INTEGRITY_CHECK
    else (flags, BP_SUCCESS)
  else if bib.cipher_suite_id.value = BP_BIB_CRC32_CASTAGNOLI then
    if bib.crc32 ≠ (bplib_crc32_castagnoli payload &&& 0xFFFFFFFF) then
      bplog flags BP_FLAG_FAILED_INTEGRITY_CHECK
    else (flags, BP_SUCCESS)
  else
    bplog flags BP_FLAG_INVALID_CIPHER_SUITEID

/-- C7: for every payload buffer and every BIB, if `bib_update` with that
payload succeeds (which requires its cipher suite to be CRC-16/X.25 or
CRC-32/Castagnoli), then `bib_verify` on the block it produced and the
same payload bytes succeeds: the stored security-result CRC equals the
recomputed CRC of the unchanged payload. -/
theorem C7_bib_update_then_verify (buf : Buf) (size : Int) (payload : List Nat)
    (bib : BibBlk) (flags f2 : Nat)
    (h : (bib_update buf size payload bib flags).2.2.2 = BP_SUCCESS) :
    (bib_verify payload (bib_update buf size payload bib flags).2.1 f2).2 =
      BP_SUCCESS := by
  simp only [bib_update] at h ⊢
  split at h
  · simp [bplog, BP_ERROR, BP_SUCCESS] at h
  · rename_i hroom
    split at h
    · rename_i h16
      rw [if_neg hroom, if_pos h16]
      simp [bib_verify, h16]
    · rename_i h16
      split at h
      · rename_i h32
        rw [if_neg hroom, if_neg h16, if_pos h32]
        simp [bib_verify, h16, h32, BP_BIB_CRC16_X25, BP_BIB_CRC32_CASTAGNOLI]
      · simp [bplog, BP_ERROR, BP_SUCCESS] at h

/-- C7 (witness): update-then-verify at a concrete payload with the
canonical CRC-16 BIB layout. -/
theorem C7_bib_update_then_verify_witness :
    (bib_update (fun _ => 0) 100 [72, 73, 33]
        ⟨⟨0, 1, 1⟩, ⟨0, 2, 4⟩, ⟨1, 6, 1⟩, 1, ⟨0, 8, 1⟩, ⟨0, 9, 1⟩, ⟨4, 10, 1⟩, 5,
          ⟨2, 12, 1⟩, 0, 0⟩ 0).2.2.2 = BP_SUCCESS ∧
    (bib_verify [72, 73, 33]
        (bib_update (fun _ => 0) 100 [72, 73, 33]
          ⟨⟨0, 1, 1⟩, ⟨0, 2, 4⟩, ⟨1, 6, 1⟩, 1, ⟨0, 8, 1⟩, ⟨0, 9, 1⟩, ⟨4, 10, 1⟩, 5,
            ⟨2, 12, 1⟩, 0, 0⟩ 0).2.1 7).2 = BP_SUCCESS := by
  refine ⟨by decide, ?_⟩
  exact C7_bib_update_then_verify (fun _ => 0) 100 [72, 73, 33]
    ⟨⟨0, 1, 1⟩, ⟨0, 2, 4⟩, ⟨1, 6, 1⟩, 1, ⟨0, 8, 1⟩, ⟨0, 9, 1⟩, ⟨4, 10, 1⟩, 5,
      ⟨2, 12, 1⟩, 0, 0⟩ 0 7 (by decide)

/-! ### Flag-bit helper lemmas -/

lemma lor_and_self (f m : Nat) : (f ||| m) &&& m = m := by
  apply Nat.eq_of_testBit_eq
  intro i
  rw [Nat.testBit_and, Nat.testBit_or]
  cases hm : m.testBit i <;> simp [hm]

lemma hasFlag_lor (f m : Nat) (hm : m ≠ 0) : hasFlag (f ||| m) m = true := by
  unfold hasFlag
  rw [lor_and_self]
  simpa using hm

/-- C8: `bib_read` (once its SDNV parse phase has completed) and
`bib_write` (given at least one byte of room) return a negative error —
never a byte count — whenever the block's security-target-type is not the
payload block type, or its security-result-type is not the
integrity-signature marker, or its cipher-suite-id is neither CRC-16/X.25
nor CRC-32/Castagnoli, raising the corresponding
`INVALID_BIB_TARGET_TYPE`, `INVALID_BIB_RESULT_TYPE` or
`INVALID_CIPHER_SUITEID` flag. -/
theorem C8_bib_field_validation :
    (∀ (buf : Buf) (size : Int) (bib : BibBlk) (upd : Bool) (flags : Nat)
        (b : BibBlk) (n : Int) (sf : Nat),
      1 ≤ size → buf 0 &&& 0xFF = BP_BIB_BLK_TYPE →
      bib_read_fields buf size bib upd = some (b, n, sf) →
      (b.security_target_type ≠ BP_PAY_BLK_TYPE →
        (bib_read buf size bib upd flags).2.2 < 0 ∧
        hasFlag (bib_read buf size bib upd flags).2.1
          BP_FLAG_INVALID_BIB_TARGET_TYPE = true) ∧
      (b.security_target_type = BP_PAY_BLK_TYPE →
        b.security_result_type ≠ BP_BIB_INTEGRITY_SIGNATURE →
        (bib_read buf size bib upd flags).2.2 < 0 ∧
        hasFlag (bib_read buf size bib upd flags).2.1
          BP_FLAG_INVALID_BIB_RESULT_TYPE = true) ∧
      (b.security_target_type = BP_PAY_BLK_TYPE →
        b.security_result_type = BP_BIB_INTEGRITY_SIGNATURE →
        b.cipher_suite_id.value ≠ BP_BIB_CRC16_X25 →
        b.cipher_suite_id.value ≠ BP_BIB_CRC32_CASTAGNOLI →
        (bib_read buf size bib upd flags).2.2 < 0 ∧
        hasFlag (bib_read buf size bib upd flags).2.1
          BP_FLAG_INVALID_CIPHER_SUITEID = true)) ∧
    (∀ (buf : Buf) (size : Int) (bib : BibBlk) (upd : Bool) (flags : Nat),
      1 ≤ size →
      (bib.security_target_type ≠ BP_PAY_BLK_TYPE →
        (bib_write buf size bib upd flags).2.2.2 < 0 ∧
        hasFlag (bib_write buf size bib upd flags).2.2.1
          BP_FLAG_INVALID_BIB_TARGET_TYPE = true) ∧
      (bib.security_target_type = BP_PAY_BLK_TYPE →
        bib.security_result_type ≠ BP_BIB_INTEGRITY_SIGNATURE →
        (bib_write buf size bib upd flags).2.2.2 < 0 ∧
        hasFlag (bib_write buf size bib upd flags).2.2.1
          BP_FLAG_INVALID_BIB_RESULT_TYPE = true) ∧
      (bib.security_target_type = BP_PAY_BLK_TYPE →
        bib.security_result_type = BP_BIB_INTEGRITY_SIGNATURE →
        bib.cipher_suite_id.value ≠ BP_BIB_CRC16_X25 →
        bib.cipher_suite_id.value ≠ BP_BIB_CRC32_CASTAGNOLI →
        (bib_write buf size bib upd flags).2.2.2 < 0 ∧
        hasFlag (bib_write buf size bib upd flags).2.2.1
          BP_FLAG_INVALID_CIPHER_SUITEID = true)) := by
  constructor
  · intro buf size bib upd flags b n sf hsz htype hfields
    have hns : ¬(size < 1) := by omega
    have hty : ¬(buf 0 &&& 0xFF ≠ BP_BIB_BLK_TYPE) := not_not_intro htype
    refine ⟨?_, ?_, ?_⟩
    · intro hbad
      unfold bib_read
      rw [if_neg hns, if_neg hty, hfields]
      dsimp only
      rw [if_pos hbad]
      exact ⟨by norm_num [BP_ERROR], hasFlag_lor _ _ (by decide)⟩
    · intro hok hbad
      unfold bib_read
      rw [if_neg hns, if_neg hty, hfields]
      dsimp only
      rw [if_neg (not_not_intro hok), if_pos hbad]
      exact ⟨by norm_num [BP_ERROR], hasFlag_lor _ _ (by decide)⟩
    · intro hok1 hok2 hbad16 hbad32
      unfold bib_read
      rw [if_neg hns, if_neg hty, hfields]
      dsimp only
      rw [if_neg (not_not_intro hok1), if_neg (not_not_intro hok2),
        if_neg hbad16, if_neg hbad32]
      exact ⟨by norm_num [BP_ERROR], hasFlag_lor _ _ (by decide)⟩
  · intro buf size bib upd flags hsz
    have hns : ¬(size < 1) := by omega
    refine ⟨?_, ?_, ?_⟩
    · intro hbad
      unfold bib_write
      rw [if_neg hns, if_pos hbad]
      exact ⟨by norm_num [BP_ERROR], hasFlag_lor _ _ (by decide)⟩
    · intro hok hbad
      unfold bib_write
      rw [if_neg hns, if_neg (not_not_intro hok), if_pos hbad]
      exact ⟨by norm_num [BP_ERROR], hasFlag_lor _ _ (by decide)⟩
    · intro hok1 hok2 hbad16 hbad32
      unfold bib_write
      rw [if_neg hns, if_neg (not_not_intro hok1), if_neg (not_not_intro hok2),
        if_pos ⟨hbad16, hbad32⟩]
      exact ⟨by norm_num [BP_ERROR], hasFlag_lor _ _ (by decide)⟩

/-- C8 (witness): the validation theorem applied at a concrete parsed BIB
whose security-target-type is 7 (not the payload block type) and at a
concrete `bib_write` call with an invalid cipher suite. -/
theorem C8_bib_field_validation_witness :
    (bib_read (fun j => [13, 0, 10, 1, 7, 0, 0, 4, 5, 2, 0, 0].getD j 0)
        12 ⟨⟨0, 0, 0⟩, ⟨0, 0, 0⟩, ⟨0, 0, 0⟩, 0, ⟨0, 0, 0⟩, ⟨0, 0, 0⟩, ⟨0, 0, 0⟩,
          0, ⟨0, 0, 0⟩, 0, 0⟩ true 0).2.2 < 0 ∧
    hasFlag (bib_read (fun j => [13, 0, 10, 1, 7, 0, 0, 4, 5, 2, 0, 0].getD j 0)
        12 ⟨⟨0, 0, 0⟩, ⟨0, 0, 0⟩, ⟨0, 0, 0⟩, 0, ⟨0, 0, 0⟩, ⟨0, 0, 0⟩, ⟨0, 0, 0⟩,
          0, ⟨0, 0, 0⟩, 0, 0⟩ true 0).2.1 BP_FLAG_INVALID_BIB_TARGET_TYPE = true ∧
    (bib_write (fun _ => 0) 50
        ⟨⟨0, 1, 1⟩, ⟨0, 2, 4⟩, ⟨1, 6, 1⟩, 1, ⟨9, 8, 1⟩, ⟨0, 9, 1⟩, ⟨0, 10, 1⟩, 5,
          ⟨0, 12, 1⟩, 0, 0⟩ false 0).2.2.2 < 0 ∧
    hasFlag (bib_write (fun _ => 0) 50
        ⟨⟨0, 1, 1⟩, ⟨0, 2, 4⟩, ⟨1, 6, 1⟩, 1, ⟨9, 8, 1⟩, ⟨0, 9, 1⟩, ⟨0, 10, 1⟩, 5,
          ⟨0, 12, 1⟩, 0, 0⟩ false 0).2.2.1 BP_FLAG_INVALID_CIPHER_SUITEID = true := by
  have h1 := (C8_bib_field_validation.1
    (fun j => [13, 0, 10, 1, 7, 0, 0, 4, 5, 2, 0, 0].getD j 0) 12
    ⟨⟨0, 0, 0⟩, ⟨0, 0, 0⟩, ⟨0, 0, 0⟩, 0, ⟨0, 0, 0⟩, ⟨0, 0, 0⟩, ⟨0, 0, 0⟩, 0,
      ⟨0, 0, 0⟩, 0, 0⟩ true 0
    ⟨⟨0, 1, 1⟩, ⟨10, 2, 1⟩, ⟨1, 3, 1⟩, 7, ⟨0, 5, 1⟩, ⟨0, 6, 1⟩, ⟨4, 7, 1⟩, 5,
      ⟨2, 9, 1⟩, 0, 0⟩ 10 0
    (by norm_num) (by decide) (by decide)).1 (by decide)
  have h2 := ((C8_bib_field_validation.2 (fun _ => 0) 50
    ⟨⟨0, 1, 1⟩, ⟨0, 2, 4⟩, ⟨1, 6, 1⟩, 1, ⟨9, 8, 1⟩, ⟨0, 9, 1⟩, ⟨0, 10, 1⟩, 5,
      ⟨0, 12, 1⟩, 0, 0⟩ false 0 (by norm_num)).2.2) rfl rfl (by decide) (by decide)
  exact ⟨h1.1, h1.2, h2.1, h2.2⟩

/-! ### SDNV write lemmas (for the block-flag claim) -/

lemma lor_eq_zero (a b : Nat) (h : a ||| b = 0) : a = 0 ∧ b = 0 := by
  constructor
  · apply Nat.eq_of_testBit_eq
    intro i
    have hb := congrArg (fun n => n.testBit i) h
    simp [Nat.testBit_or] at hb
    simp [hb.1]
  · apply Nat.eq_of_testBit_eq
    intro i
    have hb := congrArg (fun n => n.testBit i) h
    simp [Nat.testBit_or] at hb
    simp [hb.2]

lemma bufWrite_ne (b : Buf) (i v j : Nat) (h : j ≠ i) : bufWrite b i v j = b j :=
  if_neg h

lemma bufWrite_eq (b : Buf) (i v : Nat) : bufWrite b i v i = v := if_pos rfl

lemma foldl_range_bufWrite_preserve (g : Nat → Nat) :
    ∀ (w idx : Nat) (buf : Buf) (j : Nat), j < idx →
    ((List.range w).foldl (fun b i => bufWrite b (idx + i) (g i)) buf) j = buf j := by
  intro w
  induction w with
  | zero => intro idx buf j _; rfl
  | succ w' ih =>
      intro idx buf j hj
      rw [List.range_succ, List.foldl_append]
      simp only [List.foldl_cons, List.foldl_nil]
      rw [bufWrite_ne _ _ _ _ (by omega)]
      exact ih idx buf j hj

lemma foldl_range_bufWrite_last (g : Nat → Nat) (w' idx : Nat) (buf : Buf) :
    ((List.range (w' + 1)).foldl (fun b i => bufWrite b (idx + i) (g i)) buf)
      (idx + w') = g w' := by
  rw [List.range_succ, List.foldl_append]
  simp only [List.foldl_cons, List.foldl_nil]
  exact bufWrite_eq _ _ _

lemma write_crc16_preserve (c : Nat) (buf : Buf) (i j : Nat)
    (hj1 : j ≠ i) (hj2 : j ≠ i + 1) : write_crc16 c buf i j = buf j := by
  unfold write_crc16
  rw [bufWrite_ne _ _ _ _ hj2, bufWrite_ne _ _ _ _ hj1]

lemma write_crc32_preserve (c : Nat) (buf : Buf) (i j : Nat)
    (hj1 : j ≠ i) (hj2 : j ≠ i + 1) (hj3 : j ≠ i + 2) (hj4 : j ≠ i + 3) :
    write_crc32 c buf i j = buf j := by
  unfold write_crc32
  rw [bufWrite_ne _ _ _ _ hj4, bufWrite_ne _ _ _ _ hj3,
    bufWrite_ne _ _ _ _ hj2, bufWrite_ne _ _ _ _ hj1]

lemma sdnv_write_ret (buf : Buf) (size : Int) (f : BpField) (flags : Nat) :
    (sdnv_write buf size f flags).2.2 =
      ((f.index + (if f.width = 0 then sdnvMinWidth f.value else f.width) : Nat) :
        Int) := by
  simp only [sdnv_write]
  by_cases hw : f.width = 0
  · rw [if_pos hw]
    split <;> rfl
  · rw [if_neg hw]
    split <;> rfl

lemma sdnv_write_preserve (buf : Buf) (size : Int) (f : BpField) (flags : Nat)
    (j : Nat) (hj : j < f.index) : (sdnv_write buf size f flags).1 j = buf j := by
  simp only [sdnv_write]
  by_cases hw : f.width = 0
  · rw [if_pos hw]
    split
    · rfl
    · exact foldl_range_bufWrite_preserve _ _ _ _ _ hj
  · rw [if_neg hw]
    split
    · rfl
    · exact foldl_range_bufWrite_preserve _ _ _ _ _ hj

lemma sdnv_write_flags_zero (buf : Buf) (size : Int) (f : BpField) (flags : Nat)
    (h : (sdnv_write buf size f flags).2.1 = 0) :
    flags = 0 ∧
    ¬(((f.index + (if f.width = 0 then sdnvMinWidth f.value else f.width) : Nat) :
        Int) > size) := by
  simp only [sdnv_write] at h
  by_cases hw : f.width = 0
  · rw [if_pos hw] at h ⊢
    split at h
    · have h2 := (lor_eq_zero _ _ h).2
      norm_num [BP_FLAG_SDNV_INCOMPLETE] at h2
    · rename_i hfit
      refine ⟨?_, hfit⟩
      split at h
      · exact (lor_eq_zero _ _ h).1
      · exact h
  · rw [if_neg hw] at h ⊢
    split at h
    · have h2 := (lor_eq_zero _ _ h).2
      norm_num [BP_FLAG_SDNV_INCOMPLETE] at h2
    · rename_i hfit
      refine ⟨?_, hfit⟩
      split at h
      · exact (lor_eq_zero _ _ h).1
      · exact h

lemma sdnv_write_last_byte (buf : Buf) (size : Int) (f : BpField) (flags w' : Nat)
    (hw : (if f.width = 0 then sdnvMinWidth f.value else f.width) = w' + 1)
    (hfit : ¬(((f.index + (w' + 1) : Nat) : Int) > size)) :
    (sdnv_write buf size f flags).1 (f.index + w') =
      sdnvEncodeByte f.value (w' + 1) w' := by
  simp only [sdnv_write, hw]
  rw [if_neg hfit]
  exact foldl_range_bufWrite_last _ w' f.index buf

lemma encodeByte_single_odd (v : Nat) (hv : v % 2 = 1) :
    sdnvEncodeByte v 1 0 % 2 = 1 := by
  unfold sdnvEncodeByte
  rw [if_neg (by omega)]
  simp only [Nat.sub_self, Nat.sub_zero, Nat.mul_zero, Nat.shiftRight_zero]
  rw [← Nat.and_one_is_mod, Nat.and_assoc]
  norm_num
  exact hv

lemma lor_repall_odd (x : Nat) : (x ||| BP_BLK_REPALL_MASK) % 2 = 1 := by
  unfold BP_BLK_REPALL_MASK
  rw [← Nat.and_one_is_mod]
  exact lor_and_self x 1

lemma bib_write_fixed_bf (buf : Buf) (size : Int) (b : BibBlk) (flags : Nat) :
    (bib_write_fixed buf size b flags).2.1.bf = b.bf := by
  simp only [bib_write_fixed]
  repeat' split
  all_goals rfl

lemma bib_write_layout_bf_value (buf : Buf) (size : Int) (b : BibBlk)
    (flags : Nat) :
    (bib_write_layout buf size b flags).2.1.bf.value = b.bf.value := by
  simp only [bib_write_layout]
  repeat' split
  all_goals rfl

/-- On a successful canonical-layout `bib_write_fixed` run, the byte the
block-flags SDNV occupies (offset 1) carries the low bit of the
block-flags value. -/
lemma bib_write_fixed_byte1 (buf : Buf) (size : Int) (b : BibBlk) (flags : Nat)
    (h1 : b.bf.index = 1) (h2 : b.bf.width = 1)
    (h3 : b.blklen.index = 2) (h4 : b.blklen.width = 4)
    (h5 : b.security_target_count.index = 6)
    (h6 : b.security_target_count.width = 1)
    (h7 : b.cipher_suite_id.index = 8) (h8 : b.cipher_suite_id.width = 1)
    (h9 : b.cipher_suite_flags.index = 9) (h10 : b.cipher_suite_flags.width = 1)
    (h11 : b.compound_length.index = 10) (h12 : b.compound_length.width = 1)
    (h13 : b.security_result_length.index = 12)
    (h14 : b.security_result_length.width = 1)
    (hodd : b.bf.value % 2 = 1)
    (hs : 0 ≤ (bib_write_fixed buf size b flags).2.2.2) :
    (bib_write_fixed buf size b flags).1 1 % 2 = 1 := by
  simp only [bib_write_fixed] at hs ⊢
  set w1 := sdnv_write buf size b.bf 0 with hw1
  set w2 := sdnv_write w1.1 size b.blklen w1.2.1 with hw2
  set w3 := sdnv_write w2.1 size b.security_target_count w2.2.1 with hw3
  split at hs
  · norm_num [bplog, BP_ERROR] at hs
  · rename_i hc1
    rw [if_neg hc1]
    set bufD := bufWrite w3.1 w3.2.2.toNat b.security_target_type with hbufD
    set w4 := sdnv_write bufD size b.cipher_suite_id w3.2.1 with hw4
    set w5 := sdnv_write w4.1 size b.cipher_suite_flags w4.2.1 with hw5
    set w6 := sdnv_write w5.1 size b.compound_length w5.2.1 with hw6
    split at hs
    · norm_num [bplog, BP_ERROR] at hs
    · rename_i hc2
      rw [if_neg hc2]
      set bufH := bufWrite w6.1 w6.2.2.toNat b.security_result_type with hbufH
      set w7 := sdnv_write bufH size b.security_result_length w6.2.1 with hw7
      -- the ret offsets at the canonical layout
      have r3 : w3.2.2 = (7 : Int) := by
        rw [hw3, sdnv_write_ret]
        simp [h5, h6]
      have r6 : w6.2.2 = (11 : Int) := by
        rw [hw6, sdnv_write_ret]
        simp [h11, h12]
      have r7 : w7.2.2 = (13 : Int) := by
        rw [hw7, sdnv_write_ret]
        simp [h13, h14]
      have hj13 : w7.2.2.toNat = 13 := by rw [r7]; rfl
      have hchain : w7.2.1 = 0 → w1.1 1 % 2 = 1 := by
        intro hz8
        have hz7 : w6.2.1 = 0 := by
          rw [hw7] at hz8
          exact (sdnv_write_flags_zero _ _ _ _ hz8).1
        have hz6 : w5.2.1 = 0 := by
          rw [hw6] at hz7
          exact (sdnv_write_flags_zero _ _ _ _ hz7).1
        have hz5 : w4.2.1 = 0 := by
          rw [hw5] at hz6
          exact (sdnv_write_flags_zero _ _ _ _ hz6).1
        have hz4 : w3.2.1 = 0 := by
          rw [hw4] at hz5
          exact (sdnv_write_flags_zero _ _ _ _ hz5).1
        have hz3 : w2.2.1 = 0 := by
          rw [hw3] at hz4
          exact (sdnv_write_flags_zero _ _ _ _ hz4).1
        have hz2 : w1.2.1 = 0 := by
          rw [hw2] at hz3
          exact (sdnv_write_flags_zero _ _ _ _ hz3).1
        rw [hw1] at hz2
        have hfit1 := (sdnv_write_flags_zero _ _ _ _ hz2).2
        have hb1 : w1.1 1 = sdnvEncodeByte b.bf.value 1 0 := by
          rw [hw1]
          have := sdnv_write_last_byte buf size b.bf 0 0 (by simp [h2])
            (by simpa [h1, h2] using hfit1)
          simpa [h1] using this
        rw [hb1]
        exact encodeByte_single_odd _ hodd
      -- peel the post-bf writes off, outermost first, in each cipher branch
      split at hs
      · -- CRC-16 suite
        rename_i hcs
        simp only [if_pos hcs]
        split at hs
        · norm_num [BP_ERROR] at hs
        · rename_i hz
          rw [if_neg hz]
          rw [not_not] at hz
          have hz8 : w7.2.1 = 0 := (sdnv_write_flags_zero _ _ _ _ hz).1
          dsimp only
          rw [sdnv_write_preserve _ _ _ _ 1 (by simp [h3]),
            write_crc16_preserve _ _ _ _ (by omega) (by omega),
            hw7, sdnv_write_preserve _ _ _ _ 1 (by simp [h13]),
            hbufH, bufWrite_ne _ _ _ _ (by rw [r6]; simp),
            hw6, sdnv_write_preserve _ _ _ _ 1 (by simp [h11]),
            hw5, sdnv_write_preserve _ _ _ _ 1 (by simp [h9]),
            hw4, sdnv_write_preserve _ _ _ _ 1 (by simp [h7]),
            hbufD, bufWrite_ne _ _ _ _ (by rw [r3]; simp),
            hw3, sdnv_write_preserve _ _ _ _ 1 (by simp [h5]),
            hw2, sdnv_write_preserve _ _ _ _ 1 (by simp [h3])]
          exact hchain hz8
      · -- CRC-32 suite
        rename_i hcs
        simp only [if_neg hcs]
        split at hs
        · norm_num [BP_ERROR] at hs
        · rename_i hz
          rw [if_neg hz]
          rw [not_not] at hz
          have hz8 : w7.2.1 = 0 := (sdnv_write_flags_zero _ _ _ _ hz).1
          dsimp only
          rw [sdnv_write_preserve _ _ _ _ 1 (by simp [h3]),
            write_crc32_preserve _ _ _ _ (by omega) (by omega) (by omega)
              (by omega),
            hw7, sdnv_write_preserve _ _ _ _ 1 (by simp [h13]),
            hbufH, bufWrite_ne _ _ _ _ (by rw [r6]; simp),
            hw6, sdnv_write_preserve _ _ _ _ 1 (by simp [h11]),
            hw5, sdnv_write_preserve _ _ _ _ 1 (by simp [h9]),
            hw4, sdnv_write_preserve _ _ _ _ 1 (by simp [h7]),
            hbufD, bufWrite_ne _ _ _ _ (by rw [r3]; simp),
            hw3, sdnv_write_preserve _ _ _ _ 1 (by simp [h5]),
            hw2, sdnv_write_preserve _ _ _ _ 1 (by simp [h3])]
          exact hchain hz8

/-- C10: every BIB emitted by a successful `bib_write` has the
REPLICATE-IN-ALL-FRAGMENTS mask ORed into its block-flags value,
regardless of the flags value the caller supplied; in particular the
flags value is odd, and on the canonical layout (the one the bundle
builder uses) the emitted block-flags SDNV byte at offset 1 carries the
set bit. -/
theorem C10_bib_write_sets_replicate_mask (buf : Buf) (size : Int)
    (bib : BibBlk) (upd : Bool) (flags : Nat)
    (hs : 0 ≤ (bib_write buf size bib upd flags).2.2.2) :
    (bib_write buf size bib upd flags).2.1.bf.value =
      bib.bf.value ||| BP_BLK_REPALL_MASK ∧
    (bib_write buf size bib upd flags).2.1.bf.value % 2 = 1 ∧
    (upd = false → bib.bf.index = 1 → bib.bf.width = 1 →
      bib.blklen.index = 2 → bib.blklen.width = 4 →
      bib.security_target_count.index = 6 →
      bib.security_target_count.width = 1 → bib.cipher_suite_id.index = 8 →
      bib.cipher_suite_id.width = 1 → bib.cipher_suite_flags.index = 9 →
      bib.cipher_suite_flags.width = 1 → bib.compound_length.index = 10 →
      bib.compound_length.width = 1 → bib.security_result_length.index = 12 →
      bib.security_result_length.width = 1 →
      (bib_write buf size bib upd flags).1 1 % 2 = 1) := by
  simp only [bib_write] at hs ⊢
  by_cases hsz : size < 1
  · rw [if_pos hsz] at hs
    norm_num [bplog, BP_ERROR] at hs
  rw [if_neg hsz] at hs ⊢
  by_cases ht : bib.security_target_type ≠ BP_PAY_BLK_TYPE
  · rw [if_pos ht] at hs
    norm_num [bplog, BP_ERROR] at hs
  rw [if_neg ht] at hs ⊢
  by_cases hr : bib.security_result_type ≠ BP_BIB_INTEGRITY_SIGNATURE
  · rw [if_pos hr] at hs
    norm_num [bplog, BP_ERROR] at hs
  rw [if_neg hr] at hs ⊢
  by_cases hcb : bib.cipher_suite_id.value ≠ BP_BIB_CRC16_X25 ∧
      bib.cipher_suite_id.value ≠ BP_BIB_CRC32_CASTAGNOLI
  · rw [if_pos hcb] at hs
    norm_num [bplog, BP_ERROR] at hs
  rw [if_neg hcb] at hs ⊢
  by_cases hc16 : bib.cipher_suite_id.value = BP_BIB_CRC16_X25
  · simp only [if_pos hc16] at hs ⊢
    cases upd with
    | false =>
        simp only [Bool.false_eq_true, if_neg, if_false] at hs ⊢
        have hA := bib_write_fixed_bf (bufWrite buf 0 BP_BIB_BLK_TYPE) size
          ⟨⟨bib.bf.value ||| BP_BLK_REPALL_MASK, bib.bf.index, bib.bf.width⟩,
            bib.blklen, bib.security_target_count, bib.security_target_type,
            bib.cipher_suite_id, bib.cipher_suite_flags,
            ⟨4, bib.compound_length.index, bib.compound_length.width⟩,
            bib.security_result_type,
            ⟨2, bib.security_result_length.index, bib.security_result_length.width⟩,
            bib.crc16, bib.crc32⟩ flags
        refine ⟨by rw [hA], by rw [hA]; exact lor_repall_odd _, ?_⟩
        intro _ hh1 hh2 hh3 hh4 hh5 hh6 hh7 hh8 hh9 hh10 hh11 hh12 hh13 hh14
        exact bib_write_fixed_byte1 _ _ _ _ (by simp [hh1]) (by simp [hh2])
          (by simp [hh3]) (by simp [hh4]) (by simp [hh5]) (by simp [hh6])
          (by simp [hh7]) (by simp [hh8]) (by simp [hh9]) (by simp [hh10])
          (by simp [hh11]) (by simp [hh12]) (by simp [hh13]) (by simp [hh14])
          (lor_repall_odd _) hs
    | true =>
        simp only [if_pos] at hs ⊢
        have hA := bib_write_layout_bf_value (bufWrite buf 0 BP_BIB_BLK_TYPE)
          size
          ⟨⟨bib.bf.value ||| BP_BLK_REPALL_MASK, bib.bf.index, bib.bf.width⟩,
            bib.blklen, bib.security_target_count, bib.security_target_type,
            bib.cipher_suite_id, bib.cipher_suite_flags,
            ⟨4, bib.compound_length.index, bib.compound_length.width⟩,
            bib.security_result_type,
            ⟨2, bib.security_result_length.index, bib.security_result_length.width⟩,
            bib.crc16, bib.crc32⟩ flags
        refine ⟨by rw [hA], by rw [hA]; exact lor_repall_odd _, ?_⟩
        intro hfalse
        exact absurd hfalse (by simp)
  · simp only [if_neg hc16] at hs ⊢
    cases upd with
    | false =>
        simp only [Bool.false_eq_true, if_neg, if_false] at hs ⊢
        have hA := bib_write_fixed_bf (bufWrite buf 0 BP_BIB_BLK_TYPE) size
          ⟨⟨bib.bf.value ||| BP_BLK_REPALL_MASK, bib.bf.index, bib.bf.width⟩,
            bib.blklen, bib.security_target_count, bib.security_target_type,
            bib.cipher_suite_id, bib.cipher_suite_flags,
            ⟨6, bib.compound_length.index, bib.compound_length.width⟩,
            bib.security_result_type,
            ⟨4, bib.security_result_length.index, bib.security_result_length.width⟩,
            bib.crc16, bib.crc32⟩ flags
        refine ⟨by rw [hA], by rw [hA]; exact lor_repall_odd _, ?_⟩
        intro _ hh1 hh2 hh3 hh4 hh5 hh6 hh7 hh8 hh9 hh10 hh11 hh12 hh13 hh14
        exact bib_write_fixed_byte1 _ _ _ _ (by simp [hh1]) (by simp [hh2])
          (by simp [hh3]) (by simp [hh4]) (by simp [hh5]) (by simp [hh6])
          (by simp [hh7]) (by simp [hh8]) (by simp [hh9]) (by simp [hh10])
          (by simp [hh11]) (by simp [hh12]) (by simp [hh13]) (by simp [hh14])
          (lor_repall_odd _) hs
    | true =>
        simp only [if_pos] at hs ⊢
        have hA := bib_write_layout_bf_value (bufWrite buf 0 BP_BIB_BLK_TYPE)
          size
          ⟨⟨bib.bf.value ||| BP_BLK_REPALL_MASK, bib.bf.index, bib.bf.width⟩,
            bib.blklen, bib.security_target_count, bib.security_target_type,
            bib.cipher_suite_id, bib.cipher_suite_flags,
            ⟨6, bib.compound_length.index, bib.compound_length.width⟩,
            bib.security_result_type,
            ⟨4, bib.security_result_length.index, bib.security_result_length.width⟩,
            bib.crc16, bib.crc32⟩ flags
        refine ⟨by rw [hA], by rw [hA]; exact lor_repall_odd _, ?_⟩
        intro hfalse
        exact absurd hfalse (by simp)

/-- C10 (witness): a concrete successful canonical-layout `bib_write`
whose caller-supplied block flags (2) lack the replicate bit; the emitted
block carries flags 3 and the flag SDNV byte at offset 1 is odd. -/
theorem C10_bib_write_sets_replicate_mask_witness :
    (0 : Int) ≤ (bib_write (fun _ => 0) 128
      ⟨⟨2, 1, 1⟩, ⟨0, 2, 4⟩, ⟨1, 6, 1⟩, 1, ⟨0, 8, 1⟩, ⟨0, 9, 1⟩, ⟨0, 10, 1⟩, 5,
        ⟨0, 12, 1⟩, 0, 0⟩ false 0).2.2.2 ∧
    (bib_write (fun _ => 0) 128
      ⟨⟨2, 1, 1⟩, ⟨0, 2, 4⟩, ⟨1, 6, 1⟩, 1, ⟨0, 8, 1⟩, ⟨0, 9, 1⟩, ⟨0, 10, 1⟩, 5,
        ⟨0, 12, 1⟩, 0, 0⟩ false 0).2.1.bf.value = 2 ||| BP_BLK_REPALL_MASK ∧
    (bib_write (fun _ => 0) 128
      ⟨⟨2, 1, 1⟩, ⟨0, 2, 4⟩, ⟨1, 6, 1⟩, 1, ⟨0, 8, 1⟩, ⟨0, 9, 1⟩, ⟨0, 10, 1⟩, 5,
        ⟨0, 12, 1⟩, 0, 0⟩ false 0).2.1.bf.value % 2 = 1 ∧
    (bib_write (fun _ => 0) 128
      ⟨⟨2, 1, 1⟩, ⟨0, 2, 4⟩, ⟨1, 6, 1⟩, 1, ⟨0, 8, 1⟩, ⟨0, 9, 1⟩, ⟨0, 10, 1⟩, 5,
        ⟨0, 12, 1⟩, 0, 0⟩ false 0).1 1 % 2 = 1 := by
  have h := C10_bib_write_sets_replicate_mask (fun _ => 0) 128
    ⟨⟨2, 1, 1⟩, ⟨0, 2, 4⟩, ⟨1, 6, 1⟩, 1, ⟨0, 8, 1⟩, ⟨0, 9, 1⟩, ⟨0, 10, 1⟩, 5,
      ⟨0, 12, 1⟩, 0, 0⟩ false 0 (by decide)
  exact ⟨by decide, h.1, h.2.1,
    h.2.2 rfl rfl rfl rfl rfl rfl rfl rfl rfl rfl rfl rfl rfl rfl rfl⟩

/-! ## v6 bundle structures (src/v6/v6.c and src/lib/bundle_types.h) -/

/-- Modelled from the spec: BPv6 primary block version byte. -/
def BP_PRI_VERSION : Nat := 6

/-- Modelled from the spec: class-of-service codes; values arbitrary. -/
def BP_COS_EXPEDITED : Nat := 2

/-- Modelled from the spec. -/
def BP_COS_EXTENDED : Nat := 3

/-- Modelled from the spec. -/
def BP_DEFAULT_CLASS_OF_SERVICE : Nat := 1

/-- `bp_blk_pri_t`. -/
structure PriBlk where
  version : Nat
  pcf : BpField
  blklen : BpField
  dstnode : BpField
  dstserv : BpField
  srcnode : BpField
  srcserv : BpField
  rptnode : BpField
  rptserv : BpField
  cstnode : BpField
  cstserv : BpField
  createsec : BpField
  createseq : BpField
  lifetime : BpField
  dictlen : BpField
  fragoffset : BpField
  paylen : BpField
  is_admin_rec : Bool
  is_frag : Bool
  allow_frag : Bool
  cst_rqst : Bool
  ack_app : Bool
  cos : Nat
deriving DecidableEq

/-- `bp_blk_cteb_t`; the EID string is a byte list. -/
structure CtebBlk where
  bf : BpField
  blklen : BpField
  cid : BpField
  csteid : List Nat
  cstnode : Nat
  cstserv : Nat
deriving DecidableEq

/-- `bp_blk_pay_t`; the payload pointer is carried separately as a byte
list by the functions that need the bytes. -/
structure PayBlk where
  bf : BpField
  blklen : BpField
  paysize : Int
deriving DecidableEq

/-- `bundle_pri_blk` (src/v6/v6.c:67): the canonical primary block. -/
def bundle_pri_blk : PriBlk :=
  { version := BP_PRI_VERSION
    pcf := ⟨0, 1, 3⟩
    blklen := ⟨0, 4, 1⟩
    dstnode := ⟨0, 5, 4⟩
    dstserv := ⟨0, 9, 2⟩
    srcnode := ⟨0, 11, 4⟩
    srcserv := ⟨0, 15, 2⟩
    rptnode := ⟨0, 17, 4⟩
    rptserv := ⟨0, 21, 2⟩
    cstnode := ⟨0, 23, 4⟩
    cstserv := ⟨0, 27, 2⟩
    createsec := ⟨0, 29, 6⟩
    createseq := ⟨0, 35, 2⟩
    lifetime := ⟨0, 37, 6⟩
    dictlen := ⟨0, 43, 1⟩
    fragoffset := ⟨0, 44, 4⟩
    paylen := ⟨0, 48, 4⟩
    is_admin_rec := false
    is_frag := false
    allow_frag := false
    cst_rqst := true
    ack_app := false
    cos := BP_DEFAULT_CLASS_OF_SERVICE }

/-- `bundle_cteb_blk` (src/v6/v6.c:92). -/
def bundle_cteb_blk : CtebBlk := ⟨⟨0, 1, 1⟩, ⟨0, 2, 1⟩, ⟨0, 3, 4⟩, [], 0, 0⟩

/-- `bundle_bib_blk` (src/v6/v6.c:96). -/
def bundle_bib_blk : BibBlk :=
  ⟨⟨0, 1, 1⟩, ⟨0, 2, 4⟩, ⟨1, 6, 1⟩, BP_PAY_BLK_TYPE, ⟨0, 8, 1⟩, ⟨0, 9, 1⟩,
    ⟨0, 10, 1⟩, BP_BIB_INTEGRITY_SIGNATURE, ⟨0, 12, 1⟩, 0, 0⟩

/-- `bundle_pay_blk` (src/v6/v6.c:109). -/
def bundle_pay_blk : PayBlk := ⟨⟨0, 1, 1⟩, ⟨0, 2, 4⟩, 0⟩

/-- `bp_attr_t` (the attribute fields the modelled paths read). -/
structure BpAttr where
  lifetime : Nat
  request_custody : Bool
  admin_record : Bool
  integrity_check : Bool
  allow_fragmentation : Bool
  ignore_expiration : Bool
  cipher_suite : Nat
  class_of_service : Nat
  max_length : Int
deriving DecidableEq

/-- `bp_route_t`. -/
structure BpRoute where
  local_node : Nat
  local_service : Nat
  destination_node : Nat
  destination_service : Nat
  report_node : Nat
  report_service : Nat
deriving DecidableEq

/-- `bp_bundle_data_t`. -/
structure BundleData where
  exprtime : Nat
  cidfield : BpField
  cteboffset : Nat
  biboffset : Nat
  payoffset : Nat
  headersize : Int
  bundlesize : Int
  header : Buf

/-- `bp_v6blocks_t`. -/
structure V6Blocks where
  primary_block : PriBlk
  custody_block : CtebBlk
  integrity_block : BibBlk
  payload_block : PayBlk

/-- `bp_bundle_t`. -/
structure Bundle where
  route : BpRoute
  attributes : BpAttr
  data : BundleData
  prebuilt : Bool
  blocks : V6Blocks

/-- The memset-zeroed `bp_bundle_data_t`. -/
def emptyBundleData : BundleData := ⟨0, ⟨0, 0, 0⟩, 0, 0, 0, 0, 0, fun _ => 0⟩

/-! ## PRI/CTEB/PAY codecs

Modelled from the spec (§3, §6): pri.c, cteb.c and pay.c are not part of
the repository snapshot.  Only the canonical-layout write paths the
engine uses are modelled. -/

/-- Modelled from the spec (§3): pack the processing control flags; bit
positions are not fixed by the spec and are chosen arbitrarily but
injectively. -/
def pri_pcf_value (p : PriBlk) : Nat :=
  (if p.is_frag then 1 else 0) + (if p.is_admin_rec then 2 else 0) +
  (if ¬p.allow_frag then 4 else 0) + (if p.cst_rqst then 8 else 0) +
  (if p.ack_app then 32 else 0) + p.cos % 8 * 64

/-- Modelled from the spec (§6): canonical-layout `pri_write`; version
byte at offset 0 and the SDNV fields at the indices recorded in the
block; the fragment fields are present only when the is-fragment bit is
set. -/
def pri_write (buf : Buf) (size : Int) (pri : PriBlk) (flags : Nat) :
    Buf × Nat × Int :=
  let total : Nat :=
    if pri.is_frag then pri.paylen.index + pri.paylen.width
    else pri.dictlen.index + pri.dictlen.width
  if (total : Int) > size then
    (buf, (bplog flags BP_FLAG_FAILED_TO_PARSE).1, BP_ERROR)
  else
    let b0 := bufWrite buf 0 pri.version
    let s1 := sdnv_write b0 size ⟨pri_pcf_value pri, pri.pcf.index, pri.pcf.width⟩ 0
    let s2 := sdnv_write s1.1 size
      ⟨total - (pri.blklen.index + pri.blklen.width), pri.blklen.index,
        pri.blklen.width⟩ s1.2.1
    let s3 := sdnv_write s2.1 size pri.dstnode s2.2.1
    let s4 := sdnv_write s3.1 size pri.dstserv s3.2.1
    let s5 := sdnv_write s4.1 size pri.srcnode s4.2.1
    let s6 := sdnv_write s5.1 size pri.srcserv s5.2.1
    let s7 := sdnv_write s6.1 size pri.rptnode s6.2.1
    let s8 := sdnv_write s7.1 size pri.rptserv s7.2.1
    let s9 := sdnv_write s8.1 size pri.cstnode s8.2.1
    let s10 := sdnv_write s9.1 size pri.cstserv s9.2.1
    let s11 := sdnv_write s10.1 size pri.createsec s10.2.1
    let s12 := sdnv_write s11.1 size pri.createseq s11.2.1
    let s13 := sdnv_write s12.1 size pri.lifetime s12.2.1
    let s14 := sdnv_write s13.1 size pri.dictlen s13.2.1
    let s15 :=
      if pri.is_frag then
        let a := sdnv_write s14.1 size pri.fragoffset s14.2.1
        sdnv_write a.1 size pri.paylen a.2.1
      else s14
    if s15.2.1 ≠ 0 then (s15.1, flags ||| s15.2.1, BP_ERROR)
    else (s15.1, flags, (total : Int))

/-- Decimal digit bytes of a number (for the `ipn:` EID string). -/
def natDecDigitsAux : Nat → Nat → List Nat
  | 0, n => [48 + n % 10]
  | fuel + 1, n =>
      if n < 10 then [48 + n]
      else natDecDigitsAux fuel (n / 10) ++ [48 + n % 10]

def natDecDigits (n : Nat) : List Nat := natDecDigitsAux n n

/-- Modelled from the spec: `bplib_ipn2eid` produces `"ipn:node.service"`
with a trailing NUL. -/
def bplib_ipn2eid (node service : Nat) : List Nat :=
  [105, 112, 110, 58] ++ natDecDigits node ++ [46] ++ natDecDigits service ++ [0]

/-- Modelled from the spec (§3): canonical-layout `cteb_write`: type
byte, flags SDNV, block-length SDNV, custody-ID SDNV, EID string. -/
def cteb_write (buf : Buf) (size : Int) (cteb : CtebBlk) (flags : Nat) :
    Buf × Nat × Int :=
  let total : Nat := cteb.cid.index + cteb.cid.width + cteb.csteid.length
  if (total : Int) > size then
    (buf, (bplog flags BP_FLAG_FAILED_TO_PARSE).1, BP_ERROR)
  else
    let b0 := bufWrite buf 0 BP_CTEB_BLK_TYPE
    let s1 := sdnv_write b0 size cteb.bf 0
    let s2 := sdnv_write s1.1 size
      ⟨total - (cteb.blklen.index + cteb.blklen.width), cteb.blklen.index,
        cteb.blklen.width⟩ s1.2.1
    let s3 := sdnv_write s2.1 size cteb.cid s2.2.1
    let b1 := bufWriteList s3.1 (cteb.cid.index + cteb.cid.width) cteb.csteid
    if s3.2.1 ≠ 0 then (b1, flags ||| s3.2.1, BP_ERROR)
    else (b1, flags, (total : Int))

/-- Modelled from the spec (§3): canonical-layout `pay_write` (static
portion: type byte, flags SDNV, block-length SDNV). -/
def pay_write (buf : Buf) (size : Int) (pay : PayBlk) (flags : Nat) :
    Buf × Nat × Int :=
  let total : Nat := pay.blklen.index + pay.blklen.width
  if (total : Int) > size then
    (buf, (bplog flags BP_FLAG_FAILED_TO_PARSE).1, BP_ERROR)
  else
    let b0 := bufWrite buf 0 BP_PAY_BLK_TYPE
    let s1 := sdnv_write b0 size pay.bf 0
    let s2 := sdnv_write s1.1 size pay.blklen s1.2.1
    if s2.2.1 ≠ 0 then (s2.1, flags ||| s2.2.1, BP_ERROR)
    else (s2.1, flags, (total : Int))

/-! ## Bundle builder `v6_build` (src/v6/v6.c:125), staged:
primary block, custody block, integrity block, forwarded-header copy. -/

/-- Copy stage of `v6_build` (src/v6/v6.c:250-269): append the
non-excluded forwarded header bytes (failing `BUNDLE_TOO_LARGE` when the
cumulative header would exceed the 128-byte buffer) and record the
payload offset. -/
def v6_build_copy (bundle : Bundle) (pblk : PriBlk) (cblk : CtebBlk)
    (iblk : BibBlk) (prebuilt : Bool) (hdr_buf : List Nat) (hdr_len : Nat)
    (hdr : Buf) (cidfield : BpField) (cteboffset biboffset i : Nat)
    (fl : Nat) : Bundle × Nat × Int :=
  if i + hdr_len < BP_BUNDLE_HDR_BUF_SIZE then
    ({ bundle with
       data := { exprtime := 0, cidfield := cidfield, cteboffset := cteboffset,
                 biboffset := biboffset, payoffset := i + hdr_len,
                 headersize := 0, bundlesize := 0,
                 header := bufWriteList hdr i hdr_buf }
       blocks := { primary_block := pblk, custody_block := cblk,
                   integrity_block := iblk,
                   payload_block := bundle_pay_blk }
       prebuilt := prebuilt }, fl, BP_SUCCESS)
  else
    ({ bundle with
       data := { exprtime := 0, cidfield := cidfield, cteboffset := cteboffset,
                 biboffset := biboffset, payoffset := 0, headersize := 0,
                 bundlesize := 0, header := hdr }
       blocks := { primary_block := pblk, custody_block := cblk,
                   integrity_block := iblk,
                   payload_block := bundle.blocks.payload_block }
       prebuilt := prebuilt },
     (bplog fl BP_FLAG_BUNDLE_TOO_LARGE).1, BP_ERROR)

/-- Integrity-block stage of `v6_build` (src/v6/v6.c:225-248). -/
def v6_build_bib (bundle : Bundle) (pblk : PriBlk) (cblk : CtebBlk)
    (prebuilt : Bool) (hdr_buf : List Nat) (hdr_len : Nat) (hdr : Buf)
    (cidfield : BpField) (cteboffset i : Nat) (fl : Nat) :
    Bundle × Nat × Int :=
  if bundle.attributes.integrity_check then
    let iblk := { bundle_bib_blk with
                  cipher_suite_id := ⟨bundle.attributes.cipher_suite, 8, 1⟩ }
    let w := bib_write (viewBuf hdr i) ((BP_BUNDLE_HDR_BUF_SIZE : Int) - i)
      iblk false fl
    let hdr' := blendBuf hdr i w.1
    if w.2.2.2 < 0 then
      ({ bundle with
         data := { exprtime := 0, cidfield := cidfield,
                   cteboffset := cteboffset, biboffset := i, payoffset := 0,
                   headersize := 0, bundlesize := 0, header := hdr' }
         blocks := { primary_block := pblk, custody_block := cblk,
                     integrity_block := w.2.1,
                     payload_block := bundle.blocks.payload_block }
         prebuilt := prebuilt },
       (bplog w.2.2.1 BP_FLAG_FAILED_TO_PARSE).1, BP_ERROR)
    else
      v6_build_copy bundle pblk cblk w.2.1 prebuilt hdr_buf hdr_len hdr'
        cidfield cteboffset i (i + w.2.2.2.toNat) w.2.2.1
  else
    v6_build_copy bundle pblk cblk bundle.blocks.integrity_block prebuilt
      hdr_buf hdr_len hdr cidfield cteboffset 0 i fl

/-- Custody-block stage of `v6_build` (src/v6/v6.c:197-223). -/
def v6_build_cteb (bundle : Bundle) (pblk : PriBlk) (prebuilt : Bool)
    (hdr_buf : List Nat) (hdr_len : Nat) (hdr : Buf) (i : Nat) (fl : Nat) :
    Bundle × Nat × Int :=
  if pblk.cst_rqst then
    let cblk : CtebBlk :=
      { bundle_cteb_blk with
        cid := ⟨0, 3, 4⟩
        csteid := bplib_ipn2eid bundle.route.local_node
          bundle.route.local_service }
    let w := cteb_write (viewBuf hdr i) ((BP_BUNDLE_HDR_BUF_SIZE : Int) - i)
      cblk fl
    let hdr' := blendBuf hdr i w.1
    if w.2.2 < 0 then
      ({ bundle with
         data := { exprtime := 0, cidfield := cblk.cid, cteboffset := i,
                   payoffset := 0, biboffset := 0, headersize := 0,
                   bundlesize := 0, header := hdr' }
         blocks := { primary_block := pblk,
                     custody_block := cblk,
                     integrity_block := bundle.blocks.integrity_block,
                     payload_block := bundle.blocks.payload_block }
         prebuilt := prebuilt },
       (bplog w.2.1 BP_FLAG_FAILED_TO_PARSE).1, BP_ERROR)
    else
      v6_build_bib bundle pblk cblk prebuilt hdr_buf hdr_len hdr' cblk.cid i
        (i + w.2.2.toNat) w.2.1
  else
    v6_build_bib bundle pblk bundle.blocks.custody_block prebuilt hdr_buf
      hdr_len hdr ⟨0, 0, 0⟩ 0 i fl

/-- The primary block `v6_build` writes (src/v6/v6.c:137-174): the one
handed in, or the canonical block seeded from the route and attributes. -/
def v6_build_seed (bundle : Bundle) (pri : Option PriBlk) : PriBlk :=
  match pri with
  | some p => p
  | none =>
      { bundle_pri_blk with
          dstnode := ⟨bundle.route.destination_node, 5, 4⟩
          dstserv := ⟨bundle.route.destination_service, 9, 2⟩
          srcnode := ⟨bundle.route.local_node, 11, 4⟩
          srcserv := ⟨bundle.route.local_service, 15, 2⟩
          rptnode := ⟨bundle.route.report_node, 17, 4⟩
          rptserv := ⟨bundle.route.report_service, 21, 2⟩
          cstnode := ⟨(if bundle.attributes.request_custody then
            bundle.route.local_node else 0), 23, 4⟩
          cstserv := ⟨(if bundle.attributes.request_custody then
            bundle.route.local_service else 0), 27, 2⟩
          lifetime := ⟨bundle.attributes.lifetime, 37, 6⟩
          is_admin_rec := bundle.attributes.admin_record
          allow_frag := bundle.attributes.allow_fragmentation
          cst_rqst := bundle.attributes.request_custody
          cos := if bundle.attributes.class_of_service > BP_COS_EXPEDITED
            then BP_COS_EXTENDED else bundle.attributes.class_of_service }

/-- `v6_build` (src/v6/v6.c:125): seed or adopt the primary block, write
it, then the optional custody and integrity blocks, then the forwarded
extension bytes. -/
def v6_build (bundle : Bundle) (pri : Option PriBlk) (hdr_buf : List Nat)
    (hdr_len : Nat) (flags : Nat) : Bundle × Nat × Int :=
  let pblk := v6_build_seed bundle pri
  let prebuilt : Bool := pri.isNone
  let w := pri_write (fun _ => 0) (BP_BUNDLE_HDR_BUF_SIZE : Int) pblk flags
  if w.2.2 < 0 then
    ({ bundle with
       data := { emptyBundleData with header := w.1 }
       blocks := { bundle.blocks with primary_block := pblk }
       prebuilt := prebuilt },
     (bplog w.2.1 BP_FLAG_FAILED_TO_PARSE).1, BP_ERROR)
  else
    v6_build_cteb bundle pblk prebuilt hdr_buf hdr_len w.1 w.2.2.toNat w.2.1

/-! ## Send path `v6_send_bundle` (src/v6/v6.c:350) -/

/-- The expiration-time computation of `v6_send_bundle`
(src/v6/v6.c:411-431): sentinel creation times propagate; otherwise the
64-bit sum of creation time and lifetime, saturated to
`BP_MAX_ENCODED_VALUE` with `SDNV_OVERFLOW` raised when the sum rolls
over. -/
def v6_set_exprtime (createsec lifetime : Nat) (flags : Nat) : Nat × Nat :=
  if createsec = BP_TTL_CREATION_TIME then
    (BP_TTL_CREATION_TIME, flags)
  else if createsec = BP_UNKNOWN_CREATION_TIME then
    (BP_UNKNOWN_CREATION_TIME, flags)
  else
    let s := (createsec + lifetime) % BP_VAL_MOD
    if s < createsec then
      (BP_MAX_ENCODED_VALUE, flags ||| BP_FLAG_SDNV_OVERFLOW)
    else
      (s, flags)

/-- Outcome of a `v6_send_bundle` run: the mutated bundle, the fragments
handed to the storage collaborator as `(payload_offset, fragment_size)`
pairs, the flags word, and the return status (`none` when the enqueue
loop exhausted its fuel without terminating). -/
structure SendOut where
  bundle : Bundle
  calls : List (Int × Int)
  flags : Nat
  status : Option Int

/-- Loop exit of `v6_send_bundle` (src/v6/v6.c:478-486): after all
fragments are stored, a prebuilt bundle's sequence count is incremented
and masked to its SDNV width. -/
def v6_send_finish (bundle : Bundle) (calls : List (Int × Int))
    (flags : Nat) : SendOut :=
  let bundle' :=
    if bundle.prebuilt then
      { bundle with
        blocks.primary_block.createseq :=
          sdnv_mask ⟨(bundle.blocks.primary_block.createseq.value + 1) %
            BP_VAL_MOD, bundle.blocks.primary_block.createseq.index,
            bundle.blocks.primary_block.createseq.width⟩ }
    else bundle
  ⟨bundle', calls, flags, some BP_SUCCESS⟩

/-- The enqueue loop of `v6_send_bundle` (src/v6/v6.c:433-476); the fuel
bounds the number of iterations (the C loop does not terminate when the
fragment size fails to be positive). -/
def v6_send_loop (create : Nat → Int) (payload : List Nat)
    (paysize maxPaysize : Int) :
    Nat → Bundle → Int → Nat → List (Int × Int) → Nat → SendOut
  | 0, bundle, payload_offset, _, calls, flags =>
    if payload_offset < paysize then ⟨bundle, calls, flags, none⟩
    else v6_send_finish bundle calls flags
  | fuel' + 1, bundle, payload_offset, callIdx, calls, flags =>
    if payload_offset < paysize then
        let payload_remaining := paysize - payload_offset
        let fragment_size :=
          if maxPaysize < payload_remaining then maxPaysize
          else payload_remaining
        let pri := bundle.blocks.primary_block
        let pri' :=
          if pri.is_frag then
            { pri with
              fragoffset := ⟨(payload_offset % (BP_VAL_MOD : Int)).toNat,
                pri.fragoffset.index, pri.fragoffset.width⟩
              paylen := ⟨(paysize % (BP_VAL_MOD : Int)).toNat,
                pri.paylen.index, pri.paylen.width⟩ }
          else pri
        let a := sdnv_write bundle.data.header
          (BP_BUNDLE_HDR_BUF_SIZE : Int) pri'.fragoffset flags
        let bwr := sdnv_write a.1 (BP_BUNDLE_HDR_BUF_SIZE : Int) pri'.paylen
          a.2.1
        let hdr1 := if pri.is_frag then bwr.1 else bundle.data.header
        let fl1 := if pri.is_frag then bwr.2.1 else flags
        let frag_bytes := (payload.drop payload_offset.toNat).take
          fragment_size.toNat
        let u := bib_update (viewBuf hdr1 bundle.data.biboffset)
          ((BP_BUNDLE_HDR_BUF_SIZE : Int) - bundle.data.biboffset) frag_bytes
          bundle.blocks.integrity_block fl1
        let hdr2 := if bundle.data.biboffset ≠ 0 then
          blendBuf hdr1 bundle.data.biboffset u.1 else hdr1
        let bib2 := if bundle.data.biboffset ≠ 0 then u.2.1
          else bundle.blocks.integrity_block
        let fl2 := if bundle.data.biboffset ≠ 0 then u.2.2.1 else fl1
        let pay' : PayBlk :=
          { bf := bundle.blocks.payload_block.bf
            blklen := ⟨(fragment_size % (BP_VAL_MOD : Int)).toNat,
              bundle.blocks.payload_block.blklen.index,
              bundle.blocks.payload_block.blklen.width⟩
            paysize := paysize }
        let w := pay_write (viewBuf hdr2 bundle.data.payoffset)
          ((BP_BUNDLE_HDR_BUF_SIZE : Int) - bundle.data.payoffset) pay' fl2
        let bundle1 :=
          { bundle with
            blocks := { bundle.blocks with
                        primary_block := pri'
                        integrity_block := bib2
                        payload_block := pay' }
            data := { bundle.data with
                      header := blendBuf hdr2 bundle.data.payoffset w.1 } }
        if w.2.2 < 0 then
          ⟨bundle1, calls, (bplog w.2.1 BP_FLAG_FAILED_TO_PARSE).1,
            some BP_ERROR⟩
        else
          let bundle2 :=
            { bundle1 with
              data := { bundle1.data with
                        headersize := (bundle.data.payoffset : Int) + w.2.2
                        bundlesize := (bundle.data.payoffset : Int) + w.2.2 +
                          fragment_size } }
          let st := create callIdx
          let calls' := calls ++ [(payload_offset, fragment_size)]
          if st ≠ BP_SUCCESS then
            ⟨bundle2, calls', (bplog w.2.1 BP_FLAG_STORE_FAILURE).1,
              some BP_ERROR⟩
          else
            v6_send_loop create payload paysize maxPaysize fuel' bundle2
              (payload_offset + fragment_size) (callIdx + 1) calls' w.2.1
    else v6_send_finish bundle calls flags

/-- The body of `v6_send_bundle` after the fragmentation checks
(src/v6/v6.c:384-487): set creation time, compute the stored expiration
time, and run the enqueue loop. -/
def v6_send_main (bundle : Bundle) (payload : List Nat)
    (paysize maxPaysize : Int) (sysRes : Option Nat) (create : Nat → Int)
    (fuel : Nat) (flags : Nat) : SendOut :=
  let pri := bundle.blocks.primary_block
  let tstep : PriBlk × BpField × Buf × Nat :=
    if bundle.prebuilt then
      match sysRes with
      | none =>
          let flA := (bplog flags BP_FLAG_UNRELIABLE_TIME).1
          let pri1 := { pri with
            createsec := ⟨BP_UNKNOWN_CREATION_TIME, pri.createsec.index,
              pri.createsec.width⟩ }
          let lt1 : BpField := ⟨BP_BEST_EFFORT_LIFETIME, pri.lifetime.index,
            pri.lifetime.width⟩
          let s0 := sdnv_write bundle.data.header
            (BP_BUNDLE_HDR_BUF_SIZE : Int) lt1 flA
          let s1 := sdnv_write s0.1 (BP_BUNDLE_HDR_BUF_SIZE : Int)
            pri1.createsec s0.2.1
          let s2 := sdnv_write s1.1 (BP_BUNDLE_HDR_BUF_SIZE : Int)
            pri1.createseq s1.2.1
          (pri1, lt1, s2.1, s2.2.1)
      | some t =>
          let pri1 := { pri with
            createsec := ⟨t, pri.createsec.index, pri.createsec.width⟩ }
          let s1 := sdnv_write bundle.data.header
            (BP_BUNDLE_HDR_BUF_SIZE : Int) pri1.createsec flags
          let s2 := sdnv_write s1.1 (BP_BUNDLE_HDR_BUF_SIZE : Int)
            pri1.createseq s1.2.1
          (pri1, pri.lifetime, s2.1, s2.2.1)
    else (pri, pri.lifetime, bundle.data.header, flags)
  let e := v6_set_exprtime tstep.1.createsec.value tstep.2.1.value tstep.2.2.2
  let bundleB :=
    { bundle with
      blocks := { bundle.blocks with primary_block := tstep.1 }
      data := { bundle.data with header := tstep.2.2.1, exprtime := e.1 } }
  v6_send_loop create payload paysize maxPaysize fuel bundleB 0 0 [] e.2

/-- `v6_send_bundle` (src/v6/v6.c:350): fragmentation checks, creation
time, expiration time, enqueue loop. -/
def v6_send_bundle (bundle : Bundle) (payload : List Nat)
    (sysRes : Option Nat) (create : Nat → Int) (fuel : Nat) (flags : Nat) :
    SendOut :=
  let paysize : Int := payload.length
  let bundle0 :=
    { bundle with
      blocks.payload_block :=
        { bundle.blocks.payload_block with paysize := paysize } }
  let maxPaysize : Int := bundle.attributes.max_length - bundle.data.headersize
  if paysize > maxPaysize then
    if bundle.attributes.allow_fragmentation then
      v6_send_main
        { bundle0 with blocks.primary_block.is_frag := true }
        payload paysize maxPaysize sysRes create fuel flags
    else
      ⟨bundle0, [], (bplog flags BP_FLAG_BUNDLE_TOO_LARGE).1, some BP_ERROR⟩
  else if maxPaysize ≤ 0 then
    ⟨bundle0, [], (bplog flags BP_FLAG_BUNDLE_TOO_LARGE).1, some BP_ERROR⟩
  else
    v6_send_main bundle0 payload paysize maxPaysize sysRes create fuel flags

/-- C2 (the code evaluated at the failing input): with
`max_paysize = max_length − headersize = 0` and fragmentation allowed, a
1-byte send does not fail `BUNDLE_TOO_LARGE`; it enters the enqueue loop
and hands zero-sized fragments to the storage collaborator without ever
making progress (status `none`: the loop never terminates). -/
theorem C2_zero_max_paysize_not_rejected :
    (v6_send_bundle
      ⟨⟨1, 1, 2, 1, 0, 0⟩, ⟨3600, false, false, false, true, false, 0, 0, 10⟩,
        ⟨0, ⟨0, 0, 0⟩, 0, 0, 10, 10, 0, fun _ => 0⟩, false,
        ⟨bundle_pri_blk, bundle_cteb_blk, bundle_bib_blk, bundle_pay_blk⟩⟩
      [55] none (fun _ => BP_SUCCESS) 3 0).calls =
        [(0, 0), (0, 0), (0, 0)] ∧
    hasFlag
      (v6_send_bundle
        ⟨⟨1, 1, 2, 1, 0, 0⟩, ⟨3600, false, false, false, true, false, 0, 0, 10⟩,
          ⟨0, ⟨0, 0, 0⟩, 0, 0, 10, 10, 0, fun _ => 0⟩, false,
          ⟨bundle_pri_blk, bundle_cteb_blk, bundle_bib_blk, bundle_pay_blk⟩⟩
        [55] none (fun _ => BP_SUCCESS) 3 0).flags
      BP_FLAG_BUNDLE_TOO_LARGE = false ∧
    (v6_send_bundle
      ⟨⟨1, 1, 2, 1, 0, 0⟩, ⟨3600, false, false, false, true, false, 0, 0, 10⟩,
        ⟨0, ⟨0, 0, 0⟩, 0, 0, 10, 10, 0, fun _ => 0⟩, false,
        ⟨bundle_pri_blk, bundle_cteb_blk, bundle_bib_blk, bundle_pay_blk⟩⟩
      [55] none (fun _ => BP_SUCCESS) 3 0).status = none := by
  exact ⟨by decide, by decide, by decide⟩

/-! ### C5 helper lemmas -/

lemma v6_set_exprtime_fst (c l f : Nat) :
    (v6_set_exprtime c l f).1 = (v6_set_exprtime c l 0).1 := by
  simp only [v6_set_exprtime]
  repeat' split
  all_goals rfl

lemma v6_send_loop_exprtime (create : Nat → Int) (payload : List Nat)
    (paysize maxPaysize : Int) : ∀ (fuel : Nat) (bundle : Bundle) (off : Int)
    (ci : Nat) (calls : List (Int × Int)) (fl : Nat),
    (v6_send_loop create payload paysize maxPaysize fuel bundle off ci calls
      fl).bundle.data.exprtime = bundle.data.exprtime := by
  intro fuel
  induction fuel with
  | zero =>
      intro bundle off ci calls fl
      simp only [v6_send_loop, v6_send_finish]
      repeat' split
      all_goals rfl
  | succ n ih =>
      intro bundle off ci calls fl
      simp only [v6_send_loop, v6_send_finish]
      repeat' split
      all_goals first
        | rfl
        | (rw [ih])

/-- The main send step stores exactly the expiration time computed by
`v6_set_exprtime` on the effective creation time and lifetime. -/
lemma v6_send_main_exprtime (bundle : Bundle) (payload : List Nat)
    (paysize maxPaysize : Int) (sysRes : Option Nat) (create : Nat → Int)
    (fuel : Nat) (flags : Nat) :
    (v6_send_main bundle payload paysize maxPaysize sysRes create fuel
      flags).bundle.data.exprtime =
    (v6_set_exprtime
      (if bundle.prebuilt then
        (match sysRes with
         | none => BP_UNKNOWN_CREATION_TIME
         | some t => t)
       else bundle.blocks.primary_block.createsec.value)
      (if bundle.prebuilt ∧ sysRes = none then BP_BEST_EFFORT_LIFETIME
       else bundle.blocks.primary_block.lifetime.value) 0).1 := by
  simp only [v6_send_main]
  rw [v6_send_loop_exprtime]
  cases hpb : bundle.prebuilt with
  | false =>
      simp only [hpb, Bool.false_eq_true, if_false, false_and]
      exact v6_set_exprtime_fst _ _ _
  | true =>
      cases sysRes with
      | none =>
          simp only [hpb, if_true, true_and]
          exact v6_set_exprtime_fst _ _ _
      | some t =>
          simp only [hpb, if_true, true_and]
          simp only [reduceCtorEq, if_false]
          exact v6_set_exprtime_fst _ _ _

/-- C5: the expiration time stored by `v6_send_bundle` is: the sentinel
itself when the (effective) creation time is `BP_TTL_CREATION_TIME` or
`BP_UNKNOWN_CREATION_TIME`; otherwise creation time plus lifetime, except
that a 64-bit wrap saturates it to `BP_MAX_ENCODED_VALUE` and raises
`SDNV_OVERFLOW`.  The first conjunct characterises the computation; the
second ties it to the value `v6_send_bundle` stores in
`data.exprtime` whenever the call passes the fragmentation checks. -/
theorem C5_send_exprtime :
    (∀ (c l f : Nat), c < BP_VAL_MOD → l < BP_VAL_MOD →
      ((c = BP_TTL_CREATION_TIME →
         v6_set_exprtime c l f = (BP_TTL_CREATION_TIME, f)) ∧
       (c = BP_UNKNOWN_CREATION_TIME →
         v6_set_exprtime c l f = (BP_UNKNOWN_CREATION_TIME, f)) ∧
       (c ≠ BP_TTL_CREATION_TIME → c ≠ BP_UNKNOWN_CREATION_TIME →
         (c + l < BP_VAL_MOD → v6_set_exprtime c l f = (c + l, f)) ∧
         (BP_VAL_MOD ≤ c + l → v6_set_exprtime c l f =
           (BP_MAX_ENCODED_VALUE, f ||| BP_FLAG_SDNV_OVERFLOW))))) ∧
    (∀ (bundle : Bundle) (payload : List Nat) (sysRes : Option Nat)
        (create : Nat → Int) (fuel : Nat) (flags : Nat),
      ¬((payload.length : Int) >
          bundle.attributes.max_length - bundle.data.headersize ∧
        bundle.attributes.allow_fragmentation = false) →
      ¬(¬((payload.length : Int) >
          bundle.attributes.max_length - bundle.data.headersize) ∧
        bundle.attributes.max_length - bundle.data.headersize ≤ 0) →
      (v6_send_bundle bundle payload sysRes create fuel
        flags).bundle.data.exprtime =
      (v6_set_exprtime
        (if bundle.prebuilt then
          (match sysRes with
           | none => BP_UNKNOWN_CREATION_TIME
           | some t => t)
         else bundle.blocks.primary_block.createsec.value)
        (if bundle.prebuilt ∧ sysRes = none then BP_BEST_EFFORT_LIFETIME
         else bundle.blocks.primary_block.lifetime.value) 0).1) := by
  constructor
  · intro c l f hc hl
    have hM : BP_VAL_MOD = 18446744073709551616 := by norm_num [BP_VAL_MOD]
    refine ⟨?_, ?_, ?_⟩
    · intro hct
      simp only [v6_set_exprtime, hct, if_pos]
    · intro hcu
      simp only [v6_set_exprtime, hcu]
      norm_num [BP_TTL_CREATION_TIME, BP_UNKNOWN_CREATION_TIME]
    · intro h1 h2
      constructor
      · intro hlt
        simp only [v6_set_exprtime, if_neg h1, if_neg h2]
        rw [Nat.mod_eq_of_lt hlt, if_neg (by omega)]
      · intro hge
        simp only [v6_set_exprtime, if_neg h1, if_neg h2]
        have hc' := hc
        have hl' := hl
        have hge' := hge
        rw [hM] at hc' hl' hge'
        have hmod : (c + l) % BP_VAL_MOD = c + l - BP_VAL_MOD := by
          rw [hM]
          omega
        rw [hmod, if_pos (by rw [hM]; omega)]
  · intro bundle payload sysRes create fuel flags h1 h2
    simp only [v6_send_bundle]
    by_cases hp : (payload.length : Int) >
        bundle.attributes.max_length - bundle.data.headersize
    · rw [if_pos hp]
      have hf : bundle.attributes.allow_fragmentation = true := by
        cases hfa : bundle.attributes.allow_fragmentation
        · exact absurd ⟨hp, hfa⟩ h1
        · rfl
      rw [if_pos hf, v6_send_main_exprtime]
    · rw [if_neg hp]
      have hm : ¬(bundle.attributes.max_length - bundle.data.headersize ≤ 0) :=
        fun hle => h2 ⟨hp, hle⟩
      rw [if_neg hm, v6_send_main_exprtime]

/-- C5 (witness): the computation and the tie-in at concrete inputs —
a wrap saturating to the maximum value, and a non-prebuilt send whose
stored expiration time is creation time plus lifetime. -/
theorem C5_send_exprtime_witness :
    v6_set_exprtime (2 ^ 64 - 2) 5 0 =
      (BP_MAX_ENCODED_VALUE, BP_FLAG_SDNV_OVERFLOW) ∧
    (v6_send_bundle
      ⟨⟨1, 1, 2, 1, 0, 0⟩, ⟨3600, false, false, false, false, false, 0, 0, 90⟩,
        ⟨0, ⟨0, 0, 0⟩, 0, 0, 50, 50, 0, fun _ => 0⟩, false,
        ⟨{ bundle_pri_blk with
            createsec := ⟨1000, 29, 6⟩
            lifetime := ⟨3600, 37, 6⟩ }, bundle_cteb_blk, bundle_bib_blk,
          bundle_pay_blk⟩⟩
      [7] (some 99) (fun _ => BP_SUCCESS) 2 0).bundle.data.exprtime = 4600 := by
  constructor
  · have h := ((C5_send_exprtime.1 (2 ^ 64 - 2) 5 0 (by norm_num [BP_VAL_MOD])
      (by norm_num [BP_VAL_MOD])).2.2 (by norm_num [BP_TTL_CREATION_TIME])
      (by norm_num [BP_UNKNOWN_CREATION_TIME])).2 (by norm_num [BP_VAL_MOD])
    simpa using h
  · have h := C5_send_exprtime.2
      ⟨⟨1, 1, 2, 1, 0, 0⟩, ⟨3600, false, false, false, false, false, 0, 0, 90⟩,
        ⟨0, ⟨0, 0, 0⟩, 0, 0, 50, 50, 0, fun _ => 0⟩, false,
        ⟨{ bundle_pri_blk with
            createsec := ⟨1000, 29, 6⟩
            lifetime := ⟨3600, 37, 6⟩ }, bundle_cteb_blk, bundle_bib_blk,
          bundle_pay_blk⟩⟩
      [7] (some 99) (fun _ => BP_SUCCESS) 2 0 (by norm_num) (by norm_num)
    rw [h]
    decide

/-! ## Receive path `v6_receive_bundle` (src/v6/v6.c:492)

The missing block-codec read functions are modelled from the spec by
presenting the input as an already-parsed list of non-primary blocks,
each carrying its byte length and a parse-success bit; the v6.c logic —
the exclusion list, the block dispatch, the expiration check and the
disposition — is translated from the source. -/

/-- From src/v6/v6.c:41. -/
def BP_NUM_EXCLUDE_REGIONS : Nat := 16

/-- `v6_is_expired` (src/v6/v6.c:863). -/
def v6_is_expired (bundle : Bundle) (sysnow exprtime : Nat) (unrelt : Bool) :
    Bool :=
  !unrelt && !bundle.attributes.ignore_expiration &&
    exprtime != BP_UNKNOWN_CREATION_TIME &&
    exprtime != BP_TTL_CREATION_TIME && decide (sysnow ≥ exprtime)

/-- The receive-path expiration computation (src/v6/v6.c:533-552). -/
def v6_recv_exprtime (pri : PriBlk) (flags : Nat) : Nat × Nat :=
  let e0 := (pri.createsec.value + pri.lifetime.value) % BP_VAL_MOD
  if pri.createsec.value = BP_UNKNOWN_CREATION_TIME then
    (BP_UNKNOWN_CREATION_TIME, flags)
  else if pri.createsec.value = BP_TTL_CREATION_TIME then
    (BP_TTL_CREATION_TIME, flags)
  else if e0 < pri.createsec.value then
    (BP_MAX_ENCODED_VALUE, flags ||| BP_FLAG_SDNV_OVERFLOW)
  else
    (e0, flags)

/-- Modelled from the spec: a parsed view of one non-primary block of
the received buffer — its kind, its decoded contents, its byte length
and whether its codec read succeeded. -/
inductive RecvBlk where
  | bibB (blk : BibBlk) (len : Nat) (ok : Bool)
  | ctebB (blk : CtebBlk) (len : Nat) (ok : Bool)
  | extB (flagsVal len : Nat) (ok : Bool)
  | payB (bytes : List Nat) (hdrLen : Nat) (ok : Bool)
deriving DecidableEq

/-- State of the block-scan loop of `v6_receive_bundle`. -/
structure RecvState where
  index : Nat
  ei : Nat
  exclude : List Nat
  cteb : Option CtebBlk
  bib : Option BibBlk
  flags : Nat
deriving DecidableEq

/-- Outcome of a `v6_receive_bundle` run: the (possibly rebuilt) bundle,
the custody information exposed through the payload structure, the
exclusion list, the flags word and the return status. -/
structure RecvOut where
  bundle : Bundle
  payload_node : Nat
  payload_service : Nat
  payload_cid : Nat
  payload_exprtime : Nat
  payload_ackapp : Bool
  payload_size : Int
  exclude : List Nat
  ei : Nat
  flags : Nat
  status : Int

/-- A `RecvOut` with no payload information. -/
def mkRecvOut (bundle : Bundle) (st : RecvState) (status : Int) : RecvOut :=
  { bundle := bundle, payload_node := 0, payload_service := 0
    payload_cid := 0, payload_exprtime := 0, payload_ackapp := false
    payload_size := 0, exclude := st.exclude, ei := st.ei, flags := st.flags
    status := status }

/-- The non-excluded header copy loop (src/v6/v6.c:722-741): total the
kept slices `[exclude[i], exclude[i+1])` for `i = 1, 3, 5, …`; `none`
models the `BUNDLE_TOO_LARGE` return when the copy would reach the
128-byte bound. -/
def copyRegions : List Nat → Nat → Option Nat
  | a :: bEnd :: rest, acc =>
      if acc + (bEnd - a) ≥ BP_BUNDLE_HDR_BUF_SIZE then none
      else copyRegions rest (acc + (bEnd - a))
  | _, acc => some acc

/-- The custody/report patch of the forwarded primary block
(src/v6/v6.c:713-720). -/
def recvPatchPri (pri : PriBlk) (route : BpRoute) : PriBlk :=
  if pri.cst_rqst then
    { pri with
      rptnode := ⟨0, pri.rptnode.index, pri.rptnode.width⟩
      rptserv := ⟨0, pri.rptserv.index, pri.rptserv.width⟩
      cstnode := ⟨route.local_node, pri.cstnode.index, pri.cstnode.width⟩
      cstserv := ⟨route.local_service, pri.cstserv.index, pri.cstserv.width⟩ }
  else pri

/-- The payload-block arm of the scan loop (src/v6/v6.c:675-826):
record the payload exclusion, verify the BIB, and decide the
disposition (forward / wrong service / admin record / local accept). -/
def recvPayload (bundle : Bundle) (pri : PriBlk) (exprtime : Nat)
    (st : RecvState) (bytes : List Nat) (hdrLen : Nat) : RecvOut :=
  let E := st.exclude ++ [st.index, st.index + hdrLen + bytes.length]
  let ei' := st.ei + 2
  let base : RecvOut :=
    { bundle := bundle, payload_node := 0, payload_service := 0
      payload_cid := 0, payload_exprtime := exprtime
      payload_ackapp := pri.ack_app, payload_size := (bytes.length : Int)
      exclude := E, ei := ei', flags := st.flags, status := BP_SUCCESS }
  let v : Nat × Int :=
    match st.bib with
    | some bblk => bib_verify bytes bblk st.flags
    | none => (st.flags, BP_SUCCESS)
  if v.2 ≠ BP_SUCCESS then
    { base with flags := v.1, status := v.2 }
  else if pri.is_admin_rec ∧ (bytes.length : Int) < 2 then
    { base with flags := (bplog v.1 BP_FLAG_FAILED_TO_PARSE).1
                status := BP_ERROR }
  else if pri.dstnode.value ≠ bundle.route.local_node then
    let pri' := recvPatchPri pri bundle.route
    match copyRegions (E.drop 1) 0 with
    | none =>
        { base with flags := (bplog v.1 BP_FLAG_BUNDLE_TOO_LARGE).1
                    status := BP_ERROR }
    | some hidx =>
        let bres := v6_build bundle (some pri') (List.replicate hidx 0) hidx
          v.1
        if bres.2.2 = BP_SUCCESS then
          if pri.cst_rqst then
            match st.cteb with
            | some c =>
                { base with bundle := bres.1, payload_node := c.cstnode
                            payload_service := c.cstserv, payload_cid := c.cid.value
                            flags := bres.2.1, status := BP_PENDING_FORWARD }
            | none =>
                { base with bundle := bres.1, payload_node := BP_IPN_NULL
                            payload_service := BP_IPN_NULL
                            flags := (bplog bres.2.1 BP_FLAG_NONCOMPLIANT).1
                            status := BP_ERROR }
          else
            { base with bundle := bres.1, payload_node := BP_IPN_NULL
                        payload_service := BP_IPN_NULL, flags := bres.2.1
                        status := BP_PENDING_FORWARD }
        else
          { base with bundle := bres.1, flags := bres.2.1
                      status := bres.2.2 }
  else if pri.dstserv.value ≠ 0 ∧
      pri.dstserv.value ≠ bundle.route.local_service then
    { base with flags := (bplog v.1 BP_FLAG_ROUTE_NEEDED).1
                status := BP_ERROR }
  else if pri.is_admin_rec then
    let rec_type := bytes.headD 0
    if rec_type = BP_ACS_REC_TYPE then
      { base with payload_node := pri.cstnode.value
                  payload_service := pri.cstserv.value
                  status := BP_PENDING_ACKNOWLEDGMENT }
    else if rec_type = BP_CS_REC_TYPE then
      { base with flags := (bplog v.1 BP_FLAG_NONCOMPLIANT).1
                  status := BP_ERROR }
    else if rec_type = BP_STAT_REC_TYPE then
      { base with flags := (bplog v.1 BP_FLAG_NONCOMPLIANT).1
                  status := BP_ERROR }
    else
      { base with flags := (bplog v.1 BP_FLAG_UNKNOWNREC).1
                  status := BP_ERROR }
  else
    if pri.cst_rqst then
      match st.cteb with
      | some c =>
          { base with payload_node := c.cstnode, payload_service := c.cstserv
                      payload_cid := c.cid.value, status := BP_PENDING_ACCEPTANCE }
      | none =>
          { base with payload_node := BP_IPN_NULL
                      payload_service := BP_IPN_NULL
                      flags := (bplog v.1 BP_FLAG_NONCOMPLIANT).1, status := BP_ERROR }
    else
      { base with payload_node := BP_IPN_NULL, payload_service := BP_IPN_NULL
                  status := BP_PENDING_ACCEPTANCE }

/-- The block-scan loop of `v6_receive_bundle` (src/v6/v6.c:569-827):
per iteration, check the exclusion-list room, then dispatch on the block
type. -/
def recvBlocks (bundle : Bundle) (pri : PriBlk) (exprtime : Nat) :
    RecvState → List RecvBlk → RecvOut
  | st, [] => mkRecvOut bundle st BP_SUCCESS
  | st, blk :: rest =>
      if st.ei ≥ BP_NUM_EXCLUDE_REGIONS - 2 then
        mkRecvOut bundle
          { st with flags := (bplog st.flags BP_FLAG_NONCOMPLIANT).1 }
          BP_ERROR
      else
        match blk with
        | RecvBlk.bibB b len ok =>
            if ok then
              recvBlocks bundle pri exprtime
                { st with index := st.index + len, ei := st.ei + 2
                          exclude := st.exclude ++ [st.index, st.index + len]
                          bib := some b } rest
            else
              mkRecvOut bundle
                { st with ei := st.ei + 1
                          exclude := st.exclude ++ [st.index]
                          flags := (bplog st.flags BP_FLAG_FAILED_TO_PARSE).1 }
                BP_ERROR
        | RecvBlk.ctebB c len ok =>
            if ok then
              recvBlocks bundle pri exprtime
                { st with index := st.index + len, cteb := some c } rest
            else
              mkRecvOut bundle
                { st with flags := (bplog st.flags BP_FLAG_FAILED_TO_PARSE).1 }
                BP_ERROR
        | RecvBlk.extB fv len ok =>
            let fl1 := st.flags ||| BP_FLAG_INCOMPLETE
            let fl2 := if fv &&& BP_BLK_NOTIFYNOPROC_MASK ≠ 0 then
              fl1 ||| BP_FLAG_NONCOMPLIANT else fl1
            let idx' := if ok then st.index + len else st.index
            let fl3 := if ok then fl2 else fl2 ||| BP_FLAG_FAILED_TO_PARSE
            let fl4 := if fv &&& BP_BLK_DELETENOPROC_MASK ≠ 0 then
              fl3 ||| BP_FLAG_DROPPED else fl3
            let st' :=
              if fv &&& BP_BLK_DROPNOPROC_MASK ≠ 0 then
                { st with index := idx', ei := st.ei + 2
                          exclude := st.exclude ++ [st.index, idx'], flags := fl4 }
              else
                -- the FORWARDNOPROC bit is ORed into the input buffer only
                { st with index := idx', flags := fl4 }
            if ¬(ok = true) ∨ fv &&& BP_BLK_DELETENOPROC_MASK ≠ 0 then
              mkRecvOut bundle st' BP_ERROR
            else
              recvBlocks bundle pri exprtime st' rest
        | RecvBlk.payB bytes hdrLen ok =>
            if ok then recvPayload bundle pri exprtime st bytes hdrLen
            else
              mkRecvOut bundle
                { st with ei := st.ei + 1
                          exclude := st.exclude ++ [st.index]
                          flags := (bplog st.flags BP_FLAG_FAILED_TO_PARSE).1 }
                BP_ERROR

/-- `v6_receive_bundle` (src/v6/v6.c:492): parse the primary block
reject a non-zero dictionary, compute the expiration time, check it
against the (collaborator-supplied) clock, then scan the remaining
blocks. -/
def v6_receive_bundle (bundle : Bundle) (pri : PriBlk) (priLen : Nat)
    (priOk : Bool) (blks : List RecvBlk) (sysRes : Option Nat) (flags : Nat) :
    RecvOut :=
  if ¬(priOk = true) then
    mkRecvOut bundle
      ⟨0, 1, [0], none, none, (bplog flags BP_FLAG_FAILED_TO_PARSE).1⟩
      BP_ERROR
  else
    let st0 : RecvState := ⟨priLen, 2, [0, priLen], none, none, flags⟩
    if pri.dictlen.value ≠ 0 then
      mkRecvOut bundle
        { st0 with flags := (bplog st0.flags BP_FLAG_NONCOMPLIANT).1 }
        BP_ERROR
    else
      let e := v6_recv_exprtime pri st0.flags
      let unrelt := sysRes.isNone
      let sysnow := sysRes.getD 0
      let fl2 := if unrelt then
        (bplog e.2 BP_FLAG_UNRELIABLE_TIME).1 else e.2
      if v6_is_expired bundle sysnow e.1 unrelt then
        mkRecvOut bundle { st0 with flags := fl2 } BP_PENDING_EXPIRATION
      else
        recvBlocks bundle pri e.1 { st0 with flags := fl2 } blks

lemma recvPayload_exclude (bundle : Bundle) (pri : PriBlk) (exprtime : Nat)
    (st : RecvState) (bytes : List Nat) (hdrLen : Nat) :
    (recvPayload bundle pri exprtime st bytes hdrLen).exclude =
      st.exclude ++ [st.index, st.index + hdrLen + bytes.length] := by
  simp only [recvPayload]
  repeat' split
  all_goals rfl

lemma recvBlocks_exclude_len (bundle : Bundle) (pri : PriBlk) (e : Nat) :
    ∀ blks st, st.exclude.length = st.ei → st.ei ≤ 15 →
      (recvBlocks bundle pri e st blks).exclude.length ≤ 16 := by
  intro blks
  induction blks with
  | nil =>
      intro st hl he
      simp only [recvBlocks, mkRecvOut]
      omega
  | cons blk rest ih =>
      intro st hl he
      by_cases hroom : st.ei ≥ BP_NUM_EXCLUDE_REGIONS - 2
      · simp only [recvBlocks]
        rw [if_pos hroom]
        simp only [mkRecvOut]
        omega
      · have he13 : st.ei ≤ 13 := by
          simp only [BP_NUM_EXCLUDE_REGIONS] at hroom
          omega
        cases blk with
        | bibB b len ok =>
            simp only [recvBlocks]
            rw [if_neg hroom]
            cases ok with
            | false =>
                simp only [Bool.false_eq_true, if_false, mkRecvOut]
                simp only [List.length_append, List.length_cons,
                  List.length_nil]
                omega
            | true =>
                simp only [if_true]
                apply ih
                · dsimp only
                  simp only [List.length_append, List.length_cons,
                    List.length_nil]
                  omega
                · dsimp only
                  omega
        | ctebB c len ok =>
            simp only [recvBlocks]
            rw [if_neg hroom]
            cases ok with
            | false =>
                simp only [Bool.false_eq_true, if_false, mkRecvOut]
                omega
            | true =>
                simp only [if_true]
                exact ih _ hl (by dsimp only; omega)
        | extB fv len ok =>
            simp only [recvBlocks]
            rw [if_neg hroom]
            by_cases hdrop : fv &&& BP_BLK_DROPNOPROC_MASK ≠ 0
            · rw [if_pos hdrop]
              split
              · simp only [mkRecvOut]
                simp only [List.length_append, List.length_cons,
                  List.length_nil]
                omega
              · apply ih
                · dsimp only
                  simp only [List.length_append, List.length_cons,
                    List.length_nil]
                  omega
                · dsimp only
                  omega
            · rw [if_neg hdrop]
              split
              · simp only [mkRecvOut]
                omega
              · exact ih _ hl (by dsimp only; omega)
        | payB bytes hdrLen ok =>
            simp only [recvBlocks]
            rw [if_neg hroom]
            cases ok with
            | false =>
                simp only [Bool.false_eq_true, if_false, mkRecvOut]
                simp only [List.length_append, List.length_cons,
                  List.length_nil]
                omega
            | true =>
                simp only [if_true]
                rw [recvPayload_exclude]
                simp only [List.length_append, List.length_cons,
                  List.length_nil]
                omega

/-- C3: the exclusion list of `v6_receive_bundle` holds at most 16
entries, and exceeding its capacity is a fatal error: (1) whenever a
non-primary block is about to be processed with 14 or more exclusion
entries already in use, the scan loop returns a negative status with
`BP_FLAG_NONCOMPLIANT` raised and writes no further exclusion entries;
(2) every `v6_receive_bundle` run ends with at most
`BP_NUM_EXCLUDE_REGIONS` = 16 exclusion entries. -/
theorem C3_exclusion_overflow_guard :
    (∀ (bundle : Bundle) (pri : PriBlk) (e : Nat) (st : RecvState)
       (blk : RecvBlk) (rest : List RecvBlk),
      BP_NUM_EXCLUDE_REGIONS - 2 ≤ st.ei →
      (recvBlocks bundle pri e st (blk :: rest)).status < 0 ∧
      hasFlag (recvBlocks bundle pri e st (blk :: rest)).flags
        BP_FLAG_NONCOMPLIANT = true ∧
      (recvBlocks bundle pri e st (blk :: rest)).exclude = st.exclude) ∧
    (∀ (bundle : Bundle) (pri : PriBlk) (priLen : Nat) (priOk : Bool)
       (blks : List RecvBlk) (sysRes : Option Nat) (flags : Nat),
      (v6_receive_bundle bundle pri priLen priOk blks sysRes
        flags).exclude.length ≤ BP_NUM_EXCLUDE_REGIONS) := by
  constructor
  · intro bundle pri e st blk rest h
    simp only [recvBlocks]
    rw [if_pos h]
    refine ⟨by norm_num [mkRecvOut, BP_ERROR], ?_, rfl⟩
    simp only [mkRecvOut, bplog]
    exact hasFlag_lor _ _ (by decide)
  · intro bundle pri priLen priOk blks sysRes flags
    simp only [v6_receive_bundle, BP_NUM_EXCLUDE_REGIONS]
    split
    · simp [mkRecvOut]
    · split
      · simp [mkRecvOut]
      · split
        · simp [mkRecvOut]
        · exact recvBlocks_exclude_len _ _ _ _ _ (by simp) (by norm_num)

/-- C3 exercised concretely: a 15th block arriving with 14 exclusion
entries in use is fatal, and a complete receive keeps the list within
16 entries. -/
theorem C3_exclusion_overflow_guard_witness :
    (recvBlocks
        ⟨⟨1, 1, 2, 1, 0, 0⟩, ⟨0, false, false, false, false, false, 0, 0, 0⟩,
          emptyBundleData, false,
          ⟨bundle_pri_blk, bundle_cteb_blk, bundle_bib_blk, bundle_pay_blk⟩⟩
        bundle_pri_blk 0 ⟨52, 14, [0, 52], none, none, 0⟩
        [RecvBlk.extB 0 1 true]).status < 0 ∧
    (v6_receive_bundle
        ⟨⟨1, 1, 2, 1, 0, 0⟩, ⟨0, false, false, false, false, false, 0, 0, 0⟩,
          emptyBundleData, false,
          ⟨bundle_pri_blk, bundle_cteb_blk, bundle_bib_blk, bundle_pay_blk⟩⟩
        bundle_pri_blk 52 true [] (some 100) 0).exclude.length ≤
      BP_NUM_EXCLUDE_REGIONS :=
  ⟨(C3_exclusion_overflow_guard.1 _ _ 0 ⟨52, 14, [0, 52], none, none, 0⟩
      (RecvBlk.extB 0 1 true) [] (by norm_num [BP_NUM_EXCLUDE_REGIONS])).1,
    C3_exclusion_overflow_guard.2 _ _ 52 true [] (some 100) 0⟩

lemma status_ne_aux (s : Int) (h : s = BP_SUCCESS ∨ s = BP_ERROR) :
    s ≠ BP_PENDING_EXPIRATION := by
  rcases h with h | h <;> rw [h] <;>
    norm_num [BP_SUCCESS, BP_ERROR, BP_PENDING_EXPIRATION]

lemma bib_verify_status (payload : List Nat) (bib : BibBlk) (flags : Nat) :
    (bib_verify payload bib flags).2 = BP_SUCCESS ∨
    (bib_verify payload bib flags).2 = BP_ERROR := by
  simp only [bib_verify, bplog]
  repeat' split
  all_goals simp

lemma v6_build_copy_status (bundle : Bundle) (pblk : PriBlk) (cblk : CtebBlk)
    (iblk : BibBlk) (prebuilt : Bool) (hdr_buf : List Nat) (hdr_len : Nat)
    (hdr : Buf) (cidfield : BpField) (cteboffset biboffset i : Nat)
    (fl : Nat) :
    (v6_build_copy bundle pblk cblk iblk prebuilt hdr_buf hdr_len hdr
      cidfield cteboffset biboffset i fl).2.2 = BP_SUCCESS ∨
    (v6_build_copy bundle pblk cblk iblk prebuilt hdr_buf hdr_len hdr
      cidfield cteboffset biboffset i fl).2.2 = BP_ERROR := by
  simp only [v6_build_copy]
  split <;> simp

lemma v6_build_bib_status (bundle : Bundle) (pblk : PriBlk) (cblk : CtebBlk)
    (prebuilt : Bool) (hdr_buf : List Nat) (hdr_len : Nat) (hdr : Buf)
    (cidfield : BpField) (cteboffset i : Nat) (fl : Nat) :
    (v6_build_bib bundle pblk cblk prebuilt hdr_buf hdr_len hdr cidfield
      cteboffset i fl).2.2 = BP_SUCCESS ∨
    (v6_build_bib bundle pblk cblk prebuilt hdr_buf hdr_len hdr cidfield
      cteboffset i fl).2.2 = BP_ERROR := by
  simp only [v6_build_bib]
  split
  · split
    · simp
    · exact v6_build_copy_status _ _ _ _ _ _ _ _ _ _ _ _ _
  · exact v6_build_copy_status _ _ _ _ _ _ _ _ _ _ _ _ _

lemma v6_build_cteb_status (bundle : Bundle) (pblk : PriBlk) (prebuilt : Bool)
    (hdr_buf : List Nat) (hdr_len : Nat) (hdr : Buf) (i : Nat) (fl : Nat) :
    (v6_build_cteb bundle pblk prebuilt hdr_buf hdr_len hdr i fl).2.2 =
      BP_SUCCESS ∨
    (v6_build_cteb bundle pblk prebuilt hdr_buf hdr_len hdr i fl).2.2 =
      BP_ERROR := by
  simp only [v6_build_cteb]
  split
  · split
    · simp
    · exact v6_build_bib_status _ _ _ _ _ _ _ _ _ _ _
  · exact v6_build_bib_status _ _ _ _ _ _ _ _ _ _ _

lemma v6_build_status (bundle : Bundle) (pri : Option PriBlk)
    (hdr_buf : List Nat) (hdr_len : Nat) (flags : Nat) :
    (v6_build bundle pri hdr_buf hdr_len flags).2.2 = BP_SUCCESS ∨
    (v6_build bundle pri hdr_buf hdr_len flags).2.2 = BP_ERROR := by
  simp only [v6_build]
  split
  · simp
  · exact v6_build_cteb_status _ _ _ _ _ _ _ _

lemma recvPayload_status (bundle : Bundle) (pri : PriBlk) (e : Nat)
    (st : RecvState) (bytes : List Nat) (hdrLen : Nat) :
    (recvPayload bundle pri e st bytes hdrLen).status ≠
      BP_PENDING_EXPIRATION := by
  simp only [recvPayload]
  repeat' split
  all_goals dsimp only
  all_goals
    first
    | exact status_ne_aux _ (bib_verify_status _ _ _)
    | exact status_ne_aux _ (v6_build_status _ _ _ _ _)
    | norm_num [BP_ERROR, BP_SUCCESS, BP_PENDING_FORWARD,
        BP_PENDING_ACKNOWLEDGMENT, BP_PENDING_ACCEPTANCE,
        BP_PENDING_EXPIRATION]

lemma recvBlocks_status (bundle : Bundle) (pri : PriBlk) (e : Nat) :
    ∀ blks st,
      (recvBlocks bundle pri e st blks).status ≠ BP_PENDING_EXPIRATION := by
  intro blks
  induction blks with
  | nil =>
      intro st
      norm_num [recvBlocks, mkRecvOut, BP_SUCCESS, BP_PENDING_EXPIRATION]
  | cons blk rest ih =>
      intro st
      simp only [recvBlocks]
      split
      · norm_num [mkRecvOut, BP_ERROR, BP_PENDING_EXPIRATION]
      · cases blk
        all_goals dsimp only
        all_goals repeat' split
        all_goals
          first
          | exact ih _
          | exact recvPayload_status _ _ _ _ _ _
          | norm_num [mkRecvOut, BP_ERROR, BP_PENDING_EXPIRATION]

/-- C6 counterexample to the claimed equivalence: with
`attributes.ignore_expiration` set, a reliable clock, and an expiration
time that is non-sentinel and already passed, `v6_receive_bundle` does
not return `BP_PENDING_EXPIRATION`. -/
theorem C6_counterexample :
    ((v6_recv_exprtime { bundle_pri_blk with
        createsec := ⟨5, 29, 6⟩
        lifetime := ⟨10, 37, 6⟩ } 0).1 ≠ BP_UNKNOWN_CREATION_TIME ∧
      (v6_recv_exprtime { bundle_pri_blk with
        createsec := ⟨5, 29, 6⟩
        lifetime := ⟨10, 37, 6⟩ } 0).1 ≠ BP_TTL_CREATION_TIME ∧
      (v6_recv_exprtime { bundle_pri_blk with
        createsec := ⟨5, 29, 6⟩
        lifetime := ⟨10, 37, 6⟩ } 0).1 ≤ 100) ∧
    (v6_receive_bundle
        ⟨⟨1, 1, 2, 1, 0, 0⟩, ⟨0, false, false, false, false, true, 0, 0, 0⟩,
          emptyBundleData, false,
          ⟨bundle_pri_blk, bundle_cteb_blk, bundle_bib_blk, bundle_pay_blk⟩⟩
        { bundle_pri_blk with
          createsec := ⟨5, 29, 6⟩
          lifetime := ⟨10, 37, 6⟩ } 52 true [] (some 100) 0).status ≠
      BP_PENDING_EXPIRATION := by
  decide

/-- C6 (amended): after the primary block parses with an empty
dictionary, `v6_receive_bundle` returns `BP_PENDING_EXPIRATION` exactly
when the clock is reliable, expiration is not ignored by the channel
attributes, the computed expiration time is not one of the two sentinel
values, and the current time is at or past the expiration time. -/
theorem C6_expiration_check (bundle : Bundle) (pri : PriBlk) (priLen : Nat)
    (blks : List RecvBlk) (sysRes : Option Nat) (flags : Nat)
    (hd : pri.dictlen.value = 0) :
    (v6_receive_bundle bundle pri priLen true blks sysRes flags).status =
        BP_PENDING_EXPIRATION ↔
      (sysRes.isSome = true ∧ bundle.attributes.ignore_expiration = false ∧
        (v6_recv_exprtime pri flags).1 ≠ BP_UNKNOWN_CREATION_TIME ∧
        (v6_recv_exprtime pri flags).1 ≠ BP_TTL_CREATION_TIME ∧
        (v6_recv_exprtime pri flags).1 ≤ sysRes.getD 0) := by
  simp only [v6_receive_bundle]
  rw [if_neg (by simp), if_neg (not_not_intro hd)]
  cases sysRes with
  | none =>
      simp only [Option.isNone_none, Option.getD_none, Option.isSome_none]
      rw [if_neg (by simp [v6_is_expired])]
      constructor
      · intro h
        exact absurd h (recvBlocks_status _ _ _ _ _)
      · intro h
        exact absurd h.1 (by simp)
  | some t =>
      simp only [Option.isNone_some, Option.getD_some, Option.isSome_some]
      by_cases hexp :
          v6_is_expired bundle t (v6_recv_exprtime pri flags).1 false = true
      · rw [if_pos hexp]
        simp only [v6_is_expired, Bool.and_eq_true, bne_iff_ne,
          Bool.not_eq_true', decide_eq_true_eq, Bool.not_false,
          true_and] at hexp
        obtain ⟨⟨⟨hig, hU⟩, hT⟩, hge⟩ := hexp
        simp only [mkRecvOut]
        constructor
        · intro _
          exact ⟨trivial, hig, hU, hT, hge⟩
        · intro _
          trivial
      · rw [if_neg hexp]
        constructor
        · intro h
          exact absurd h (recvBlocks_status _ _ _ _ _)
        · rintro ⟨-, hig, hU, hT, hge⟩
          exact absurd (by simp [v6_is_expired, hig, hU, hT, hge]) hexp

/-- C6 amended theorem exercised concretely: with expiration not
ignored, a reliable clock at time 100 and expiration time 15, the
receive returns `BP_PENDING_EXPIRATION`. -/
theorem C6_expiration_check_witness :
    (v6_receive_bundle
        ⟨⟨1, 1, 2, 1, 0, 0⟩, ⟨0, false, false, false, false, false, 0, 0, 0⟩,
          emptyBundleData, false,
          ⟨bundle_pri_blk, bundle_cteb_blk, bundle_bib_blk, bundle_pay_blk⟩⟩
        { bundle_pri_blk with
          createsec := ⟨5, 29, 6⟩
          lifetime := ⟨10, 37, 6⟩ } 52 true [] (some 100) 0).status =
      BP_PENDING_EXPIRATION := by
  exact (C6_expiration_check
      ⟨⟨1, 1, 2, 1, 0, 0⟩, ⟨0, false, false, false, false, false, 0, 0, 0⟩,
        emptyBundleData, false,
        ⟨bundle_pri_blk, bundle_cteb_blk, bundle_bib_blk, bundle_pay_blk⟩⟩
      { bundle_pri_blk with
        createsec := ⟨5, 29, 6⟩
        lifetime := ⟨10, 37, 6⟩ } 52 [] (some 100) 0 (by decide)).mpr
    (by decide)

lemma v6_build_copy_primary (bundle : Bundle) (pblk : PriBlk) (cblk : CtebBlk)
    (iblk : BibBlk) (prebuilt : Bool) (hdr_buf : List Nat) (hdr_len : Nat)
    (hdr : Buf) (cidfield : BpField) (cteboffset biboffset i : Nat)
    (fl : Nat) :
    (v6_build_copy bundle pblk cblk iblk prebuilt hdr_buf hdr_len hdr
      cidfield cteboffset biboffset i fl).1.blocks.primary_block = pblk := by
  simp only [v6_build_copy]
  split <;> rfl

lemma v6_build_bib_primary (bundle : Bundle) (pblk : PriBlk) (cblk : CtebBlk)
    (prebuilt : Bool) (hdr_buf : List Nat) (hdr_len : Nat) (hdr : Buf)
    (cidfield : BpField) (cteboffset i : Nat) (fl : Nat) :
    (v6_build_bib bundle pblk cblk prebuilt hdr_buf hdr_len hdr cidfield
      cteboffset i fl).1.blocks.primary_block = pblk := by
  simp only [v6_build_bib]
  split
  · split
    · rfl
    · exact v6_build_copy_primary _ _ _ _ _ _ _ _ _ _ _ _ _
  · exact v6_build_copy_primary _ _ _ _ _ _ _ _ _ _ _ _ _

lemma v6_build_cteb_primary (bundle : Bundle) (pblk : PriBlk)
    (prebuilt : Bool) (hdr_buf : List Nat) (hdr_len : Nat) (hdr : Buf)
    (i : Nat) (fl : Nat) :
    (v6_build_cteb bundle pblk prebuilt hdr_buf hdr_len hdr i
      fl).1.blocks.primary_block = pblk := by
  simp only [v6_build_cteb]
  split
  · split
    · rfl
    · exact v6_build_bib_primary _ _ _ _ _ _ _ _ _ _ _
  · exact v6_build_bib_primary _ _ _ _ _ _ _ _ _ _ _

lemma v6_build_primary (bundle : Bundle) (p : PriBlk) (hdr_buf : List Nat)
    (hdr_len : Nat) (flags : Nat) :
    (v6_build bundle (some p) hdr_buf hdr_len
      flags).1.blocks.primary_block = p := by
  simp only [v6_build]
  split
  · rfl
  · exact v6_build_cteb_primary _ _ _ _ _ _ _ _

/-- C4: for a received bundle whose payload block is reached with room
in the exclusion list, whose integrity check passes, whose payload is
not an undersized admin record, and whose destination node differs from
the local node, if the forwarded rebuild succeeds then: (a) when custody
was requested, the rebuilt primary block carries the local node/service
as custodian and a cleared report-to endpoint; (b) when custody was
requested and a CTEB was seen, the status is `BP_PENDING_FORWARD` and
the CTEB's custodian node, service and custody id are exposed through
the payload structure; (c) when custody was requested without a CTEB,
the status is negative with `BP_FLAG_NONCOMPLIANT` raised. -/
theorem C4_forward_custody (bundle : Bundle) (pri : PriBlk) (e : Nat)
    (st : RecvState) (bytes : List Nat) (hdrLen : Nat) (rest : List RecvBlk)
    (hidx : Nat) (r : RecvOut)
    (hr : r = recvBlocks bundle pri e st
      (RecvBlk.payB bytes hdrLen true :: rest))
    (hroom : st.ei < BP_NUM_EXCLUDE_REGIONS - 2)
    (hv : (match st.bib with
           | some bblk => bib_verify bytes bblk st.flags
           | none => (st.flags, BP_SUCCESS)) = (st.flags, BP_SUCCESS))
    (hadmin : ¬(pri.is_admin_rec = true ∧ (bytes.length : Int) < 2))
    (hdst : pri.dstnode.value ≠ bundle.route.local_node)
    (hcopy : copyRegions ((st.exclude ++
      [st.index, st.index + hdrLen + bytes.length]).drop 1) 0 = some hidx)
    (hbuild : (v6_build bundle (some (recvPatchPri pri bundle.route))
      (List.replicate hidx 0) hidx st.flags).2.2 = BP_SUCCESS) :
    (pri.cst_rqst = true →
      r.bundle.blocks.primary_block.cstnode.value = bundle.route.local_node ∧
      r.bundle.blocks.primary_block.cstserv.value =
        bundle.route.local_service ∧
      r.bundle.blocks.primary_block.rptnode.value = 0 ∧
      r.bundle.blocks.primary_block.rptserv.value = 0) ∧
    (∀ c : CtebBlk, pri.cst_rqst = true → st.cteb = some c →
      r.status = BP_PENDING_FORWARD ∧ r.payload_node = c.cstnode ∧
      r.payload_service = c.cstserv ∧ r.payload_cid = c.cid.value) ∧
    (pri.cst_rqst = true → st.cteb = none →
      r.status < 0 ∧ hasFlag r.flags BP_FLAG_NONCOMPLIANT = true) := by
  have hstep : recvBlocks bundle pri e st
      (RecvBlk.payB bytes hdrLen true :: rest) =
      recvPayload bundle pri e st bytes hdrLen := by
    simp only [recvBlocks]
    rw [if_neg (not_le.mpr hroom)]
    simp
  subst hr
  rw [hstep]
  simp only [recvPayload]
  rw [hv]
  dsimp only
  rw [if_neg (not_not_intro rfl), if_neg hadmin, if_pos hdst, hcopy]
  dsimp only
  rw [if_pos hbuild]
  refine ⟨?_, ?_, ?_⟩
  · intro hcst
    rw [if_pos hcst]
    cases hc : st.cteb with
    | none =>
        dsimp only
        rw [v6_build_primary]
        simp only [recvPatchPri]
        rw [if_pos hcst]
        exact ⟨rfl, rfl, rfl, rfl⟩
    | some c =>
        dsimp only
        rw [v6_build_primary]
        simp only [recvPatchPri]
        rw [if_pos hcst]
        exact ⟨rfl, rfl, rfl, rfl⟩
  · intro c hcst hc
    rw [if_pos hcst, hc]
    exact ⟨rfl, rfl, rfl, rfl⟩
  · intro hcst hc
    rw [if_pos hcst, hc]
    dsimp only
    refine ⟨by norm_num [BP_ERROR], ?_⟩
    simp only [bplog]
    exact hasFlag_lor _ _ (by decide)

/-- C4 exercised concretely: destination node 9 differs from local node
1; with custody requested and a CTEB carrying custodian `3.4` and
custody id 7, the receive forwards with `BP_PENDING_FORWARD`, exposes
the CTEB fields, and the rebuilt primary block carries custodian `1.1`
and report-to `0.0`. -/
theorem C4_forward_custody_witness :
    (recvBlocks
        ⟨⟨1, 1, 2, 1, 0, 0⟩, ⟨0, false, false, false, false, false, 0, 0, 0⟩,
          emptyBundleData, false,
          ⟨bundle_pri_blk, bundle_cteb_blk, bundle_bib_blk, bundle_pay_blk⟩⟩
        { bundle_pri_blk with dstnode := ⟨9, 5, 4⟩ } 0
        ⟨52, 2, [0, 52], some ⟨⟨0, 1, 1⟩, ⟨0, 2, 1⟩, ⟨7, 3, 4⟩, [], 3, 4⟩,
          none, 0⟩
        [RecvBlk.payB [1, 2] 6 true]).status = BP_PENDING_FORWARD ∧
    (recvBlocks
        ⟨⟨1, 1, 2, 1, 0, 0⟩, ⟨0, false, false, false, false, false, 0, 0, 0⟩,
          emptyBundleData, false,
          ⟨bundle_pri_blk, bundle_cteb_blk, bundle_bib_blk, bundle_pay_blk⟩⟩
        { bundle_pri_blk with dstnode := ⟨9, 5, 4⟩ } 0
        ⟨52, 2, [0, 52], some ⟨⟨0, 1, 1⟩, ⟨0, 2, 1⟩, ⟨7, 3, 4⟩, [], 3, 4⟩,
          none, 0⟩
        [RecvBlk.payB [1, 2] 6 true]).payload_node = 3 ∧
    (recvBlocks
        ⟨⟨1, 1, 2, 1, 0, 0⟩, ⟨0, false, false, false, false, false, 0, 0, 0⟩,
          emptyBundleData, false,
          ⟨bundle_pri_blk, bundle_cteb_blk, bundle_bib_blk, bundle_pay_blk⟩⟩
        { bundle_pri_blk with dstnode := ⟨9, 5, 4⟩ } 0
        ⟨52, 2, [0, 52], some ⟨⟨0, 1, 1⟩, ⟨0, 2, 1⟩, ⟨7, 3, 4⟩, [], 3, 4⟩,
          none, 0⟩
        [RecvBlk.payB [1, 2] 6 true]).payload_cid = 7 ∧
    (recvBlocks
        ⟨⟨1, 1, 2, 1, 0, 0⟩, ⟨0, false, false, false, false, false, 0, 0, 0⟩,
          emptyBundleData, false,
          ⟨bundle_pri_blk, bundle_cteb_blk, bundle_bib_blk, bundle_pay_blk⟩⟩
        { bundle_pri_blk with dstnode := ⟨9, 5, 4⟩ } 0
        ⟨52, 2, [0, 52], some ⟨⟨0, 1, 1⟩, ⟨0, 2, 1⟩, ⟨7, 3, 4⟩, [], 3, 4⟩,
          none, 0⟩
        [RecvBlk.payB [1, 2]
          6 true]).bundle.blocks.primary_block.cstnode.value = 1 ∧
    (recvBlocks
        ⟨⟨1, 1, 2, 1, 0, 0⟩, ⟨0, false, false, false, false, false, 0, 0, 0⟩,
          emptyBundleData, false,
          ⟨bundle_pri_blk, bundle_cteb_blk, bundle_bib_blk, bundle_pay_blk⟩⟩
        { bundle_pri_blk with dstnode := ⟨9, 5, 4⟩ } 0
        ⟨52, 2, [0, 52], some ⟨⟨0, 1, 1⟩, ⟨0, 2, 1⟩, ⟨7, 3, 4⟩, [], 3, 4⟩,
          none, 0⟩
        [RecvBlk.payB [1, 2]
          6 true]).bundle.blocks.primary_block.rptnode.value = 0 := by
  have h := C4_forward_custody
    ⟨⟨1, 1, 2, 1, 0, 0⟩, ⟨0, false, false, false, false, false, 0, 0, 0⟩,
      emptyBundleData, false,
      ⟨bundle_pri_blk, bundle_cteb_blk, bundle_bib_blk, bundle_pay_blk⟩⟩
    { bundle_pri_blk with dstnode := ⟨9, 5, 4⟩ } 0
    ⟨52, 2, [0, 52], some ⟨⟨0, 1, 1⟩, ⟨0, 2, 1⟩, ⟨7, 3, 4⟩, [], 3, 4⟩,
      none, 0⟩
    [1, 2] 6 [] 0 _ rfl (by norm_num [BP_NUM_EXCLUDE_REGIONS]) (by decide)
    (by decide) (by decide) (by decide) (by decide)
  obtain ⟨ha, hb, -⟩ := h
  obtain ⟨hs, hn, -, hcid⟩ :=
    hb ⟨⟨0, 1, 1⟩, ⟨0, 2, 1⟩, ⟨7, 3, 4⟩, [], 3, 4⟩ (by decide) rfl
  obtain ⟨hcn, -, hrn, -⟩ := ha (by decide)
  exact ⟨hs, hn, hcid, hcn, hrn⟩

end BPLib
